import Mathlib

set_option maxRecDepth 8000
set_option maxHeartbeats 1000000

/-!
Shallow embedding of the Data-Extractor repository (src/app.py, src/validators.py).

Conventions used throughout:
* Python strings are Lean `String`s; single characters are `Char`.
* Python `None` / exceptions / dynamic typing are made explicit:
  a value that may be a non-string is a `PyVal`; a computation that may
  raise an uncaught exception is an `Except String _` whose error carries
  the exception class name.
* The external collaborators (the phonenumbers library, the
  email-validator library, nameparser's HumanName, spaCy NER, the
  genderize.io lookup, werkzeug's secure_filename, and the wall clock)
  are bundled in an `ExtLibs` record of abstract functions: the embedded
  code is parametric in them, exactly as the spec treats them
  (black boxes with a fixed contract).
* Python regular expressions are embedded by a small backtracking engine
  (`Rx`) with Python `re` semantics (leftmost match, alternatives tried
  left to right, greedy quantifiers with backtracking, `\b` word
  boundaries, non-overlapping `finditer`); each pattern of the source's
  PATTERNS table is transliterated into an `Rx` value.
-/

/-! ## Python string helpers -/

/-- Python whitespace class for `str.strip` / `\s` (ASCII part). -/
def pyWS (c : Char) : Bool :=
  c = ' ' ∨ c = '\t' ∨ c = '\n' ∨ c = '\r' ∨ c = '\x0b' ∨ c = '\x0c'

/-- Python `str.strip()`. -/
def pyStrip (s : String) : String :=
  ⟨((s.data.dropWhile pyWS).reverse.dropWhile pyWS).reverse⟩

/-- Python `str.split()` (split on whitespace runs, no empty fields): one word. -/
def pySplitAux : Nat → List Char → List Char → List String
  | 0, _, _ => []
  | _ + 1, acc, [] => if acc.isEmpty then [] else [⟨acc.reverse⟩]
  | fuel + 1, acc, c :: rest =>
    if pyWS c then
      if acc.isEmpty then pySplitAux fuel [] rest
      else ⟨acc.reverse⟩ :: pySplitAux fuel [] rest
    else pySplitAux fuel (c :: acc) rest

/-- Python `str.split()`. -/
def pySplit (s : String) : List String := pySplitAux (s.data.length + 1) [] s.data

/-- Python truthiness of an optional string (`None` and `""` are falsy). -/
def truthy : Option String → Bool
  | none => false
  | some s => s ≠ ""

/-- ASCII uppercase letter (`[A-Z]`). -/
def isUpperAZ (c : Char) : Bool := 'A' ≤ c ∧ c ≤ 'Z'

/-- ASCII lowercase letter (`[a-z]`). -/
def isLowerAZ (c : Char) : Bool := 'a' ≤ c ∧ c ≤ 'z'

/-- ASCII letter. -/
def isAlphaAZ (c : Char) : Bool := isUpperAZ c ∨ isLowerAZ c

/-- ASCII digit (`\d` on the inputs considered). -/
def isDigit09 (c : Char) : Bool := '0' ≤ c ∧ c ≤ '9'

/-- Python `\w` word character (ASCII part): letter, digit or underscore. -/
def isWordChar (c : Char) : Bool := isAlphaAZ c ∨ isDigit09 c ∨ c = '_'

/-- Numeric value of an ASCII digit. -/
def digitVal (c : Char) : Nat := c.toNat - 48

/-- Python `str.upper()` (ASCII). -/
def pyUpper (s : String) : String := ⟨s.data.map Char.toUpper⟩

/-- Python `str.endswith(t)`. -/
def pyEndsWith (s t : String) : Bool :=
  s.data.reverse.take t.data.length == t.data.reverse

/-- Lower-cased copy, for `re.IGNORECASE` comparisons. -/
def lowerL (l : List Char) : List Char := l.map Char.toLower

/-! ## A small backtracking regex engine with Python `re` semantics -/

/-- Regex abstract syntax: character class, literal, sequence, ordered
alternation, greedy bounded/unbounded repetition, word boundary. -/
inductive Rx where
  | eps : Rx
  | cls (f : Char → Bool) : Rx
  | lit (s : List Char) : Rx
  | seq (a b : Rx) : Rx
  | alt (a b : Rx) : Rx
  | rep (a : Rx) (lo : Nat) (hi : Option Nat) : Rx
  | wb : Rx

/-- Consume a literal from the input, tracking the previous character. -/
def litConsume : List Char → Option Char → List Char →
    Option (Option Char × List Char)
  | [], prev, s => some (prev, s)
  | _ :: _, _, [] => none
  | c :: cs, _, d :: rest => if c = d then litConsume cs (some d) rest else none

/-- Word-boundary test between the previous character and the input head. -/
def atWB (prev : Option Char) (s : List Char) : Bool :=
  let a := match prev with | some c => isWordChar c | none => false
  let b := match s with | c :: _ => isWordChar c | [] => false
  a ≠ b

/-- Backtracking matcher in continuation style.  The continuation receives
the previous character and the unconsumed input; the first success in
Python's backtracking order (alternatives left to right, repetitions
greedy) wins.  `fuel` bounds the recursion depth; every repetition body in
the embedded patterns consumes at least one character, so the depth is at
most proportional to pattern size times input length and the fuel chosen
by `rxFuel` is never exhausted. -/
def rxM : Nat → Rx → Option Char → List Char →
    (Option Char → List Char → Option (List Char)) → Option (List Char)
  | 0, _, _, _, _ => none
  | fuel + 1, r, prev, s, k =>
    match r with
    | .eps => k prev s
    | .cls f =>
      match s with
      | [] => none
      | c :: rest => if f c then k (some c) rest else none
    | .lit l =>
      match litConsume l prev s with
      | none => none
      | some (p, rest) => k p rest
    | .seq a b => rxM fuel a prev s (fun p s2 => rxM fuel b p s2 k)
    | .alt a b =>
      match rxM fuel a prev s k with
      | some res => some res
      | none => rxM fuel b prev s k
    | .wb => if atWB prev s then k prev s else none
    | .rep a lo hi =>
      match lo with
      | l + 1 =>
        rxM fuel a prev s (fun p s2 =>
          rxM fuel (.rep a l (hi.map (· - 1))) p s2 k)
      | 0 =>
        match hi with
        | some 0 => k prev s
        | some (h + 1) =>
          match rxM fuel a prev s (fun p s2 =>
              rxM fuel (.rep a 0 (some h)) p s2 k) with
          | some res => some res
          | none => k prev s
        | none =>
          match rxM fuel a prev s (fun p s2 =>
              rxM fuel (.rep a 0 none) p s2 k) with
          | some res => some res
          | none => k prev s

/-- Recursion-depth budget for `rxM`; generous for the embedded patterns. -/
def rxFuel (s : List Char) : Nat := 100 * (s.length + 2) + 1000

/-- Try to match `r` at the current position; on success return the
unconsumed remainder of the first (Python-order) match. -/
def rxTryAt (r : Rx) (prev : Option Char) (s : List Char) : Option (List Char) :=
  rxM (rxFuel s) r prev s (fun _ rest => some rest)

/-- Last character of a matched chunk (falling back to the previous one). -/
def lastOr (m : List Char) (prev : Option Char) : Option Char :=
  match m.getLast? with
  | some c => some c
  | none => prev

/-- `re.finditer` scan: non-overlapping matches, scanning left to right;
an empty match advances by one character. -/
def finditerAux (r : Rx) : Nat → Option Char → List Char → List (List Char)
  | 0, _, _ => []
  | fuel + 1, prev, s =>
    match rxTryAt r prev s with
    | some rest =>
      let m := s.take (s.length - rest.length)
      if m.isEmpty then
        match s with
        | [] => [m]
        | c :: s2 => m :: finditerAux r fuel (some c) s2
      else m :: finditerAux r fuel (lastOr m prev) rest
    | none =>
      match s with
      | [] => []
      | c :: s2 => finditerAux r fuel (some c) s2

/-- All matches of `r` in `s`, in order, as Python's `re.finditer`. -/
def finditer (r : Rx) (s : String) : List String :=
  (finditerAux r (s.data.length + 1) none s.data).map (fun l => ⟨l⟩)

/-! ### Building blocks for transliterating the source's patterns -/

def rchar (c : Char) : Rx := .cls (fun d => d = c)

def rlit (s : String) : Rx := .lit s.data

def rcat : List Rx → Rx
  | [] => .eps
  | [r] => r
  | r :: rs => .seq r (rcat rs)

def ralts : List Rx → Rx
  | [] => .cls (fun _ => false)
  | [r] => r
  | r :: rs => .alt r (ralts rs)

def rdigit : Rx := .cls isDigit09
def rupper : Rx := .cls isUpperAZ
def rlower : Rx := .cls isLowerAZ
def rspace : Rx := .cls pyWS

/-! ## The PATTERNS table of src/app.py (lines 32-48), transliterated -/

/-- `'full_name'`: `\b(?:Mr\.|Mrs\.|Ms\.|Dr\.|Prof\.)?\s*[A-Z][a-z]+(?:\s+[A-Z][a-z]+){0,3}\b` -/
def rxFullName : Rx :=
  rcat [.wb,
    .rep (ralts [rlit "Mr.", rlit "Mrs.", rlit "Ms.", rlit "Dr.", rlit "Prof."]) 0 (some 1),
    .rep rspace 0 none,
    rupper, .rep rlower 1 none,
    .rep (rcat [.rep rspace 1 none, rupper, .rep rlower 1 none]) 0 (some 3),
    .wb]

/-- The class `[- slash]`: a dash or a forward slash. -/
def rdashSlash : Rx := .cls (fun c => c = '-' ∨ c = '/')

/-- `'date_of_birth'`: `\b(?:\d{1,2}[S]\d{1,2}[S]\d{2,4}|\d{4}[S]\d{1,2}[S]\d{1,2}|(?:Jan|Feb|Mar|Apr|May|Jun|Jul|Aug|Sep|Oct|Nov|Dec)[a-z]* \d{1,2},? \d{4})\b`
where `[S]` abbreviates the dash-or-slash class. -/
def rxDateOfBirth : Rx :=
  rcat [.wb,
    ralts
      [rcat [.rep rdigit 1 (some 2), rdashSlash, .rep rdigit 1 (some 2), rdashSlash,
             .rep rdigit 2 (some 4)],
       rcat [.rep rdigit 4 (some 4), rdashSlash, .rep rdigit 1 (some 2), rdashSlash,
             .rep rdigit 1 (some 2)],
       rcat [ralts [rlit "Jan", rlit "Feb", rlit "Mar", rlit "Apr", rlit "May", rlit "Jun",
                    rlit "Jul", rlit "Aug", rlit "Sep", rlit "Oct", rlit "Nov", rlit "Dec"],
             .rep rlower 0 none, rchar ' ', .rep rdigit 1 (some 2),
             .rep (rchar ',') 0 (some 1), rchar ' ', .rep rdigit 4 (some 4)]],
    .wb]

/-- `[- ]?` -/
def rdashSpaceOpt : Rx := .rep (.cls (fun c => c = '-' ∨ c = ' ')) 0 (some 1)

/-- `'mobile_number'`: `(?:\+91[- ]?)?[6-9]\d{9}` -/
def rxMobile : Rx :=
  rcat [.rep (rcat [rlit "+91", rdashSpaceOpt]) 0 (some 1),
    .cls (fun c => '6' ≤ c ∧ c ≤ '9'), .rep rdigit 9 (some 9)]

/-- `'telephone_number'`: `(?:\+?\d{1,4}[- ]?)?\d{2,4}[- ]?\d{3,4}[- ]?\d{3,4}` -/
def rxTelephone : Rx :=
  rcat [.rep (rcat [.rep (rchar '+') 0 (some 1), .rep rdigit 1 (some 4), rdashSpaceOpt])
          0 (some 1),
    .rep rdigit 2 (some 4), rdashSpaceOpt,
    .rep rdigit 3 (some 4), rdashSpaceOpt,
    .rep rdigit 3 (some 4)]

/-- `'email_address'`: `[a-zA-Z0-9._%+-]+@[a-zA-Z0-9.-]+\.[a-zA-Z]{2,}` -/
def rxEmail : Rx :=
  rcat [.rep (.cls (fun c => isAlphaAZ c ∨ isDigit09 c ∨ c = '.' ∨ c = '_' ∨ c = '%'
              ∨ c = '+' ∨ c = '-')) 1 none,
    rchar '@',
    .rep (.cls (fun c => isAlphaAZ c ∨ isDigit09 c ∨ c = '.' ∨ c = '-')) 1 none,
    rchar '.',
    .rep (.cls isAlphaAZ) 2 none]

/-- `[A-Za-z\s,.-]` -/
def rAddrChar : Rx := .cls (fun c => isAlphaAZ c ∨ pyWS c ∨ c = ',' ∨ c = '.' ∨ c = '-')

/-- `'residential_address'`: `\b\d+\s+[A-Za-z\s,.-]+(?:Street|St|Avenue|Ave|Road|Rd|Boulevard|Blvd|Lane|Ln|Drive|Dr|Court|Ct|Circle|Cir|Way|Place|Pl)[,\s]+[A-Za-z\s,.-]+(?:[A-Z]{2})\s+\d{5}(?:-\d{4})?\b` -/
def rxAddress : Rx :=
  rcat [.wb, .rep rdigit 1 none, .rep rspace 1 none, .rep rAddrChar 1 none,
    ralts [rlit "Street", rlit "St", rlit "Avenue", rlit "Ave", rlit "Road", rlit "Rd",
           rlit "Boulevard", rlit "Blvd", rlit "Lane", rlit "Ln", rlit "Drive", rlit "Dr",
           rlit "Court", rlit "Ct", rlit "Circle", rlit "Cir", rlit "Way", rlit "Place",
           rlit "Pl"],
    .rep (.cls (fun c => c = ',' ∨ pyWS c)) 1 none,
    .rep rAddrChar 1 none,
    rupper, rupper,
    .rep rspace 1 none, .rep rdigit 5 (some 5),
    .rep (rcat [rchar '-', .rep rdigit 4 (some 4)]) 0 (some 1),
    .wb]

/-- `'aadhar_number'`: `\b\d{4}[- ]?\d{4}[- ]?\d{4}\b` -/
def rxAadhar : Rx :=
  rcat [.wb, .rep rdigit 4 (some 4), rdashSpaceOpt, .rep rdigit 4 (some 4),
    rdashSpaceOpt, .rep rdigit 4 (some 4), .wb]

/-- `'pan_number'`: `\b[A-Z]{5}[0-9]{4}[A-Z]{1}\b` -/
def rxPan : Rx :=
  rcat [.wb, .rep rupper 5 (some 5), .rep rdigit 4 (some 4), .rep rupper 1 (some 1), .wb]

/-- `'passport_number'`: `\b[A-Z0-9]{6,9}\b` -/
def rxPassport : Rx :=
  rcat [.wb, .rep (.cls (fun c => isUpperAZ c ∨ isDigit09 c)) 6 (some 9), .wb]

/-- `'voter_id_number'`: `\b[A-Z]{3}[0-9]{7}\b` -/
def rxVoterId : Rx :=
  rcat [.wb, .rep rupper 3 (some 3), .rep rdigit 7 (some 7), .wb]

/-- `'driving_license_number'`: `\b[A-Z]{2}[0-9]{2}[- ]?[A-Z0-9]{1,2}[- ]?\d{4,7}\b` -/
def rxDrivingLicense : Rx :=
  rcat [.wb, .rep rupper 2 (some 2), .rep rdigit 2 (some 2), rdashSpaceOpt,
    .rep (.cls (fun c => isUpperAZ c ∨ isDigit09 c)) 1 (some 2), rdashSpaceOpt,
    .rep rdigit 4 (some 7), .wb]

/-- `'bank_account_number'`: `\b[0-9]{8,18}\b` -/
def rxBankAccount : Rx := rcat [.wb, .rep rdigit 8 (some 18), .wb]

/-- `'credit_debit_card_number'`: `\b(?:4[0-9]{12}(?:[0-9]{3})?|5[1-5][0-9]{14}|6(?:011|5[0-9][0-9])[0-9]{12}|3[47][0-9]{13}|3(?:0[0-5]|[68][0-9])[0-9]{11}|(?:2131|1800|35\d{3})\d{11})\b` -/
def rxCreditCard : Rx :=
  rcat [.wb,
    ralts
      [rcat [rchar '4', .rep rdigit 12 (some 12), .rep (.rep rdigit 3 (some 3)) 0 (some 1)],
       rcat [rchar '5', .cls (fun c => '1' ≤ c ∧ c ≤ '5'), .rep rdigit 14 (some 14)],
       rcat [rchar '6', ralts [rlit "011", rcat [rchar '5', rdigit, rdigit]],
             .rep rdigit 12 (some 12)],
       rcat [rchar '3', .cls (fun c => c = '4' ∨ c = '7'), .rep rdigit 13 (some 13)],
       rcat [rchar '3', ralts [rcat [rchar '0', .cls (fun c => '0' ≤ c ∧ c ≤ '5')],
                               rcat [.cls (fun c => c = '6' ∨ c = '8'), rdigit]],
             .rep rdigit 11 (some 11)],
       rcat [ralts [rlit "2131", rlit "1800", rcat [rlit "35", .rep rdigit 3 (some 3)]],
             .rep rdigit 11 (some 11)]],
    .wb]

/-- One octet: `25[0-5]|2[0-4][0-9]|[01]?[0-9][0-9]?` -/
def rxOctet : Rx :=
  ralts [rcat [rlit "25", .cls (fun c => '0' ≤ c ∧ c ≤ '5')],
         rcat [rchar '2', .cls (fun c => '0' ≤ c ∧ c ≤ '4'), rdigit],
         rcat [.rep (.cls (fun c => c = '0' ∨ c = '1')) 0 (some 1), rdigit,
               .rep rdigit 0 (some 1)]]

/-- `'ip_address'`: `\b(?:(?:25[0-5]|2[0-4][0-9]|[01]?[0-9][0-9]?)\.){3}(?:25[0-5]|2[0-4][0-9]|[01]?[0-9][0-9]?)\b` -/
def rxIpAddress : Rx :=
  rcat [.wb, .rep (rcat [rxOctet, rchar '.']) 3 (some 3), rxOctet, .wb]

/-- The PATTERNS dict of app.py.  `none` means the key is absent (a lookup
raises `KeyError`); `some none` is the `'custom_search': None` entry. -/
def PATTERNS_lookup (pattern_type : String) : Option (Option Rx) :=
  if pattern_type = "full_name" then some (some rxFullName)
  else if pattern_type = "date_of_birth" then some (some rxDateOfBirth)
  else if pattern_type = "mobile_number" then some (some rxMobile)
  else if pattern_type = "telephone_number" then some (some rxTelephone)
  else if pattern_type = "email_address" then some (some rxEmail)
  else if pattern_type = "residential_address" then some (some rxAddress)
  else if pattern_type = "aadhar_number" then some (some rxAadhar)
  else if pattern_type = "pan_number" then some (some rxPan)
  else if pattern_type = "passport_number" then some (some rxPassport)
  else if pattern_type = "voter_id_number" then some (some rxVoterId)
  else if pattern_type = "driving_license_number" then some (some rxDrivingLicense)
  else if pattern_type = "bank_account_number" then some (some rxBankAccount)
  else if pattern_type = "credit_debit_card_number" then some (some rxCreditCard)
  else if pattern_type = "ip_address" then some (some rxIpAddress)
  else if pattern_type = "custom_search" then some none
  else none

/-! ## Literal case-insensitive search
(`re.finditer(re.escape(term), text, re.IGNORECASE)`) -/

/-- Case-insensitive character comparison (ASCII, as in the inputs considered). -/
def ciEq (a b : Char) : Bool := a.toLower = b.toLower

/-- Does the input start with the term, case-insensitively? -/
def ciStarts : List Char → List Char → Bool
  | [], _ => true
  | _ :: _, [] => false
  | a :: as_, b :: bs => ciEq a b && ciStarts as_ bs

/-- Scan for non-overlapping case-insensitive occurrences of a nonempty
term, returning the matched slices of the text (which keep their own
case, as `match.group()` does). -/
def findCIAux (t : List Char) : Nat → List Char → List (List Char)
  | 0, _ => []
  | fuel + 1, s =>
    match s with
    | [] => []
    | _ :: rest =>
      if ciStarts t s then s.take t.length :: findCIAux t fuel (s.drop t.length)
      else findCIAux t fuel rest

/-- All matches of the regex-escaped literal `term` in `text` under
`re.IGNORECASE`.  An empty pattern matches (emptily) at every position,
as in Python. -/
def findCI (term text : String) : List String :=
  if term.data.isEmpty then List.replicate (text.data.length + 1) ""
  else (findCIAux term.data (text.data.length + 1) text.data).map (fun l => ⟨l⟩)

/-! ## Dates (`datetime.strptime` over the fixed format list, `strftime('%Y-%m-%d')`) -/

/-- A calendar date, as used by `validate_and_format_date`.  The future
check compares the parsed date (at midnight) with `datetime.now()`; since
`now` is never before the midnight of its own day, that comparison is
exactly a comparison of calendar dates, so a date suffices. -/
structure PyDate where
  y : Nat
  m : Nat
  d : Nat
deriving DecidableEq, Repr

/-- Strict calendar order. -/
def pyDateLt (a b : PyDate) : Bool :=
  a.y < b.y ∨ (a.y = b.y ∧ (a.m < b.m ∨ (a.m = b.m ∧ a.d < b.d)))

def isLeapYear (y : Nat) : Bool := y % 4 = 0 ∧ (y % 100 ≠ 0 ∨ y % 400 = 0)

def daysInMonth (y m : Nat) : Nat :=
  if m = 2 then (if isLeapYear y then 29 else 28)
  else if m = 4 ∨ m = 6 ∨ m = 9 ∨ m = 11 then 30
  else 31

/-- `datetime` constructor validity: strptime raises ValueError (and the
validator moves to the next format) unless this holds. -/
def validYMD (y m d : Nat) : Bool :=
  1 ≤ y ∧ 1 ≤ m ∧ m ≤ 12 ∧ 1 ≤ d ∧ d ≤ daysInMonth y m

/-- CPython's `%d` field regex `(3[01]|[12]\d|0[1-9]|[1-9])`, alternatives
tried in this order, continuation-passing so that a failing continuation
backtracks to the next alternative. -/
def pDay (s : List Char) (k : Nat → List Char → Option PyDate) : Option PyDate :=
  (match s with
   | '3' :: c :: r => if c = '0' ∨ c = '1' then k (30 + digitVal c) r else none
   | _ => none).orElse (fun _ =>
  (match s with
   | a :: c :: r =>
     if (a = '1' ∨ a = '2') ∧ isDigit09 c then k (digitVal a * 10 + digitVal c) r else none
   | _ => none).orElse (fun _ =>
  (match s with
   | '0' :: c :: r => if isDigit09 c ∧ c ≠ '0' then k (digitVal c) r else none
   | _ => none).orElse (fun _ =>
  match s with
  | c :: r => if isDigit09 c ∧ c ≠ '0' then k (digitVal c) r else none
  | _ => none)))

/-- CPython's `%m` field regex `(1[0-2]|0[1-9]|[1-9])`. -/
def pMonth (s : List Char) (k : Nat → List Char → Option PyDate) : Option PyDate :=
  (match s with
   | '1' :: c :: r => if c = '0' ∨ c = '1' ∨ c = '2' then k (10 + digitVal c) r else none
   | _ => none).orElse (fun _ =>
  (match s with
   | '0' :: c :: r => if isDigit09 c ∧ c ≠ '0' then k (digitVal c) r else none
   | _ => none).orElse (fun _ =>
  match s with
  | c :: r => if isDigit09 c ∧ c ≠ '0' then k (digitVal c) r else none
  | _ => none))

/-- CPython's `%Y` field regex: exactly four digits. -/
def pYear (s : List Char) (k : Nat → List Char → Option PyDate) : Option PyDate :=
  match s with
  | a :: b :: c :: d :: r =>
    if isDigit09 a ∧ isDigit09 b ∧ isDigit09 c ∧ isDigit09 d then
      k (digitVal a * 1000 + digitVal b * 100 + digitVal c * 10 + digitVal d) r
    else none
  | _ => none

/-- A literal character of the format string. -/
def pLit (c : Char) (s : List Char) (k : List Char → Option PyDate) : Option PyDate :=
  match s with
  | d :: r => if d = c then k r else none
  | [] => none

def monthAbbrs : List (Nat × String) :=
  [(1, "jan"), (2, "feb"), (3, "mar"), (4, "apr"), (5, "may"), (6, "jun"),
   (7, "jul"), (8, "aug"), (9, "sep"), (10, "oct"), (11, "nov"), (12, "dec")]

def monthFulls : List (Nat × String) :=
  [(1, "january"), (2, "february"), (3, "march"), (4, "april"), (5, "may"),
   (6, "june"), (7, "july"), (8, "august"), (9, "september"), (10, "october"),
   (11, "november"), (12, "december")]

/-- Match a month name from a table, case-insensitively (strptime compiles
its format regex with `re.IGNORECASE`). -/
def pMonthName (table : List (Nat × String)) (s : List Char)
    (k : Nat → List Char → Option PyDate) : Option PyDate :=
  match table with
  | [] => none
  | (n, name) :: rest =>
    if ciStarts name.data s then
      match k n (s.drop name.data.length) with
      | some d => some d
      | none => pMonthName rest s k
    else pMonthName rest s k

/-- Build the date, enforcing the `datetime(...)` validity check; strptime
requires the whole input to be consumed. -/
def pEnd (y m d : Nat) (s : List Char) : Option PyDate :=
  if s.isEmpty ∧ validYMD y m d then some ⟨y, m, d⟩ else none

/-- `'%d<sep>%m<sep>%Y'` -/
def fmtDMY (sep : Char) (s : List Char) : Option PyDate :=
  pDay s (fun d s => pLit sep s (fun s => pMonth s (fun m s =>
    pLit sep s (fun s => pYear s (fun y s => pEnd y m d s)))))

/-- `'%m<sep>%d<sep>%Y'` -/
def fmtMDY (sep : Char) (s : List Char) : Option PyDate :=
  pMonth s (fun m s => pLit sep s (fun s => pDay s (fun d s =>
    pLit sep s (fun s => pYear s (fun y s => pEnd y m d s)))))

/-- `'%Y<sep>%m<sep>%d'` -/
def fmtYMD (sep : Char) (s : List Char) : Option PyDate :=
  pYear s (fun y s => pLit sep s (fun s => pMonth s (fun m s =>
    pLit sep s (fun s => pDay s (fun d s => pEnd y m d s)))))

/-- `'%d %b %Y'` / `'%d %B %Y'` -/
def fmtDnameY (table : List (Nat × String)) (s : List Char) : Option PyDate :=
  pDay s (fun d s => pLit ' ' s (fun s => pMonthName table s (fun m s =>
    pLit ' ' s (fun s => pYear s (fun y s => pEnd y m d s)))))

/-- The source's ordered format list (validators.py lines 95-99):
`'%d/%m/%Y', '%m/%d/%Y', '%Y/%m/%d', '%d-%m-%Y', '%m-%d-%Y', '%Y-%m-%d',
'%d %b %Y', '%d %B %Y'`; the first format that parses wins. -/
def tryDateFormats (s : List Char) : Option PyDate :=
  (fmtDMY '/' s).orElse (fun _ => (fmtMDY '/' s).orElse (fun _ =>
  (fmtYMD '/' s).orElse (fun _ => (fmtDMY '-' s).orElse (fun _ =>
  (fmtMDY '-' s).orElse (fun _ => (fmtYMD '-' s).orElse (fun _ =>
  (fmtDnameY monthAbbrs s).orElse (fun _ => fmtDnameY monthFulls s)))))))

def pad2 (n : Nat) : String := if n < 10 then "0" ++ toString n else toString n

def pad4 (n : Nat) : String :=
  if n < 10 then "000" ++ toString n
  else if n < 100 then "00" ++ toString n
  else if n < 1000 then "0" ++ toString n
  else toString n

/-- `parsed_date.strftime('%Y-%m-%d')`. -/
def strftimeYMD (d : PyDate) : String := pad4 d.y ++ "-" ++ pad2 d.m ++ "-" ++ pad2 d.d

/-! ## External collaborators and Python dynamic values -/

/-- Result shape of every validator in src/validators.py:
`(normalized value or None, message or None, verdict string)`. -/
abbrev Triple : Type := Option String × Option String × String

/-- A Python value that may be passed to a validator: a string, `None`,
or some other non-string object (represented by an integer). -/
inductive PyVal where
  | str (s : String) : PyVal
  | pyNone : PyVal
  | int (n : Int) : PyVal
deriving DecidableEq

/-- nameparser's `HumanName` parse result, at the interface the source
uses: the `first`/`middle`/`last` components, `str(name)`, and the
`titles`/`suffixes` collections consulted by the part loop. -/
structure HNModel where
  first : String
  middle : String
  last : String
  str : String
  titles : List String
  suffixes : List String

/-- The external collaborators, as abstract functions.  The embedded code
is parametric in this record; a phone number returned by `phoneParse` is
represented by an opaque token (a `String`).  `Except.error` models the
library raising an exception, carrying `str(e)`. -/
structure ExtLibs where
  /-- `phonenumbers.parse(x)` -/
  phoneParse : String → Except String String
  /-- `phonenumbers.parse(x, "IN")` -/
  phoneParseIN : String → Except String String
  /-- `phonenumbers.is_valid_number` -/
  phoneValid : String → Bool
  /-- `phonenumbers.format_number(n, E164)` -/
  phoneFormatE164 : String → String
  /-- `phonenumbers.format_number(n, INTERNATIONAL)` -/
  phoneFormatIntl : String → String
  /-- `email_validator.validate_email`; `ok` carries the normalized address -/
  emailValidate : String → Except String String
  /-- `nameparser.HumanName` -/
  humanName : String → HNModel
  /-- genderize.io probability for a first name; `none` models a non-200
  response or a network failure -/
  genderizeProb : String → Option ℚ
  /-- spaCy PERSON entities of a page text, in document order -/
  personEnts : String → List String
  /-- werkzeug's `secure_filename` -/
  secure_filename : String → String
  /-- `datetime.now()`, as a calendar date -/
  now : PyDate

/-! ## src/validators.py — the DataValidator validator set

Each Python validator takes one argument that may be any Python value and
returns `(value | None, message | None, verdict)`.  The four validators
that begin with `if not value or not isinstance(value, str)` never raise
(`pyGuarded`); the nine pattern-based ones call `re.sub` / `.upper()` /
`re.match` directly on the argument and therefore raise on a non-string
(`pyUnguarded`, the error carrying the exception class). -/

/-- Guard of full_name/date/phone/email: empty or non-string input short
circuits to `(None, msg, "wrong")`; a nonempty string reaches the body
(whose `try` swallows everything, so it returns a plain `Triple`). -/
def pyGuarded (msg : String) (f : String → Triple) : PyVal → Except String Triple
  | .str s => if s = "" then .ok (none, some msg, "wrong") else .ok (f s)
  | .pyNone => .ok (none, some msg, "wrong")
  | .int _ => .ok (none, some msg, "wrong")

/-- The pattern-based validators have no guard: a string input is
processed, a non-string raises. -/
def pyUnguarded (exc : String) (f : String → Triple) : PyVal → Except String Triple
  | .str s => .ok (f s)
  | .pyNone => .error exc
  | .int _ => .error exc

/-- Python's `re.match(p + chr(36), s)` also succeeds when `s` is the
matched text followed by one trailing newline (the Dollar anchor matches
before a final newline). -/
def dollarMatch (p : List Char → Bool) (l : List Char) : Bool :=
  p l || (l.getLast? = some '\n' && p l.dropLast)

/-- `^[A-Z][a-zA-Z'-]*$` on one name part. -/
def namePartOk (part : String) : Bool :=
  dollarMatch
    (fun l => match l with
      | c :: rest => isUpperAZ c && rest.all (fun d => isAlphaAZ d ∨ d = Char.ofNat 39 ∨ d = '-')
      | [] => false)
    part.data

/-- The per-part loop of `validate_and_format_full_name` (validators.py
lines 52-71): returns the first failing triple, or `none` if all parts
pass.  Title and suffix parts are exempt. -/
def namePartsCheck (titles suffixes : List String) : List String → Option Triple
  | [] => none
  | part :: rest =>
    if titles.contains part ∨ suffixes.contains part then
      namePartsCheck titles suffixes rest
    else if ¬ namePartOk part then
      some (none, some ("Invalid name part: " ++ part), "wrong")
    else if part.length < 2 then
      some (none, some ("Name part too short: " ++ part), "wrong")
    else if part.length > 20 then
      some (none, some ("Name part too long: " ++ part), "wrong")
    else namePartsCheck titles suffixes rest

/-- Body of `DataValidator.validate_and_format_full_name` after the guard. -/
def fullNameBody (env : ExtLibs) (value0 : String) : Triple :=
  let value := pyStrip value0
  let hn := env.humanName value
  if hn.first = "" ∧ hn.last = "" then (none, some "Invalid name format", "wrong")
  else
    let formatted := hn.str
    let parts := pySplit formatted
    if parts.length > 5 then (none, some "Name has too many parts", "wrong")
    else
      match namePartsCheck hn.titles hn.suffixes parts with
      | some t => t
      | none => (some formatted, none, "correct")

/-- Body of `DataValidator.validate_and_format_date` after the guard. -/
def dateBody (env : ExtLibs) (value0 : String) : Triple :=
  let value := pyStrip value0
  match tryDateFormats value.data with
  | none => (none, some "Invalid date format", "wrong")
  | some d =>
    if d.y < 1900 ∨ d.y > env.now.y then
      (none, some "Year out of reasonable range", "wrong")
    else if pyDateLt env.now d then
      (none, some "Date cannot be in the future", "wrong")
    else (some (strftimeYMD d), none, "correct")

/-- `re.sub(r'[^\d+\-]', '', value)` keeps digits and every `+` and `-`,
wherever they occur. -/
def phoneKeep (c : Char) : Bool := isDigit09 c ∨ c = '+' ∨ c = '-'

/-- `cleaned = re.sub(r'[^\d+\-]', '', value)` (line 149). -/
def phoneClean (value : String) : List Char := value.data.filter phoneKeep

/-- Lines 152-155: prepend `+91` unless the cleaned input starts with `+`. -/
def phoneWithCC (value : String) : List Char :=
  let c := phoneClean value
  if c.head? = some '+' then c else '+' :: '9' :: '1' :: c

/-- Body of `DataValidator.validate_and_format_phone` after the guard
(validators.py lines 147-181).  `cleaned` is reassigned with the `+91`
country code before the `startswith('+')` test of line 169, exactly as in
the source. -/
def phoneBody (env : ExtLibs) (value : String) : Triple :=
  let cleaned : List Char := phoneWithCC value
  match env.phoneParse ⟨cleaned⟩ with
  | .error e => (none, some ("Error validating phone: " ++ e), "wrong")
  | .ok number =>
    if env.phoneValid number then (some (env.phoneFormatIntl number), none, "correct")
    else if cleaned.head? ≠ some '+' then
      match env.phoneParseIN ⟨cleaned⟩ with
      | .error e => (none, some ("Error validating phone: " ++ e), "wrong")
      | .ok number2 =>
        if env.phoneValid number2 then (some (env.phoneFormatIntl number2), none, "correct")
        else (none, some "Invalid phone number", "wrong")
    else (none, some "Invalid phone number", "wrong")

/-- Body of `DataValidator.validate_and_format_email` after the guard. -/
def emailBody (env : ExtLibs) (value0 : String) : Triple :=
  let value := pyStrip value0
  match env.emailValidate value with
  | .ok v => (some v, none, "correct")
  | .error e => (none, some e, "wrong")

/-- `re.sub(r'[-\s]', '', value)`: hyphens and whitespace removed. -/
def aadharClean (value : String) : List Char :=
  value.data.filter (fun c => ¬ (c = '-' ∨ pyWS c))

/-- `f"{cleaned[:4]}-{cleaned[4:8]}-{cleaned[8:]}"`. -/
def aadharFmt (cleaned : List Char) : String :=
  String.mk (cleaned.take 4) ++ "-" ++ String.mk ((cleaned.drop 4).take 4)
    ++ "-" ++ String.mk (cleaned.drop 8)

/-- `DataValidator.validate_and_format_aadhar`: strip `[-\s]`, require
`^\d{12}$`, reformat `XXXX-XXXX-XXXX`. -/
def aadharBody (value : String) : Triple :=
  let cleaned : List Char := aadharClean value
  if dollarMatch (fun l => l.length = 12 && l.all isDigit09) cleaned then
    (some (aadharFmt cleaned), none, "correct")
  else (none, some "Invalid Aadhar number", "wrong")

/-- `^[A-Z]{5}[0-9]{4}[A-Z]{1}$` -/
def panShape (l : List Char) : Bool :=
  l.length = 10 && (l.take 5).all isUpperAZ && ((l.drop 5).take 4).all isDigit09
    && (l.drop 9).all isUpperAZ

/-- `DataValidator.validate_and_format_pan`: uppercase, drop spaces,
require the PAN shape. -/
def panBody (value : String) : Triple :=
  let cleaned : List Char := (pyUpper value).data.filter (fun c => c ≠ ' ')
  if dollarMatch panShape cleaned then (some ⟨cleaned⟩, none, "correct")
  else (none, some "Invalid PAN number", "wrong")

/-- `^[A-Z0-9]{6,9}$` -/
def passportShape (l : List Char) : Bool :=
  6 ≤ l.length && l.length ≤ 9 && l.all (fun c => isUpperAZ c ∨ isDigit09 c)

def passportBody (value : String) : Triple :=
  let cleaned : List Char := (pyUpper value).data.filter (fun c => c ≠ ' ')
  if dollarMatch passportShape cleaned then (some ⟨cleaned⟩, none, "correct")
  else (none, some "Invalid passport number", "wrong")

/-- `^[A-Z]{3}[0-9]{7}$` -/
def voterIdShape (l : List Char) : Bool :=
  l.length = 10 && (l.take 3).all isUpperAZ && (l.drop 3).all isDigit09

def voterIdBody (value : String) : Triple :=
  let cleaned : List Char := (pyUpper value).data.filter (fun c => c ≠ ' ')
  if dollarMatch voterIdShape cleaned then (some ⟨cleaned⟩, none, "correct")
  else (none, some "Invalid Voter ID number", "wrong")

/-- `^[A-Z]{2}[0-9]{2}[A-Z0-9]{1,2}[0-9]{4,7}$`, written as the union over
the two lengths of the middle group (an anchored full match is the union
of its alternative decompositions). -/
def dlShape (l : List Char) : Bool :=
  ((l.take 2).all isUpperAZ && ((l.drop 2).take 2).all isDigit09) &&
  ((9 ≤ l.length && l.length ≤ 12
      && ((l.drop 4).take 1).all (fun c => isUpperAZ c ∨ isDigit09 c)
      && (l.drop 5).all isDigit09)
   || (10 ≤ l.length && l.length ≤ 13
      && ((l.drop 4).take 2).all (fun c => isUpperAZ c ∨ isDigit09 c)
      && (l.drop 6).all isDigit09))

def dlBody (value : String) : Triple :=
  let cleaned : List Char := (pyUpper value).data.filter (fun c => c ≠ ' ')
  if dollarMatch dlShape cleaned then (some ⟨cleaned⟩, none, "correct")
  else (none, some "Invalid driving license number", "wrong")

/-- `DataValidator.validate_and_format_bank_account`: keep digits, require
`^\d{8,18}$`. -/
def bankBody (value : String) : Triple :=
  let cleaned : List Char := value.data.filter isDigit09
  if dollarMatch (fun l => 8 ≤ l.length && l.length ≤ 18 && l.all isDigit09) cleaned then
    (some ⟨cleaned⟩, none, "correct")
  else (none, some "Invalid bank account number", "wrong")

/-- The anchored credit-card alternation
`4[0-9]{12}([0-9]{3})? | 5[1-5][0-9]{14} | 6(011|5[0-9][0-9])[0-9]{12} |
3[47][0-9]{13} | 3(0[0-5]|[68][0-9])[0-9]{11} | (2131|1800|35d{3})d{11}`. -/
def ccShape (l : List Char) : Bool :=
  l.all isDigit09 &&
  (match l with
   | '4' :: rest => rest.length = 12 || rest.length = 15
   | '5' :: c :: rest => ('1' ≤ c && c ≤ '5') && rest.length = 14
   | '6' :: '0' :: '1' :: '1' :: rest => rest.length = 12
   | '6' :: '5' :: _ :: _ :: rest => rest.length = 12
   | '3' :: '4' :: rest => rest.length = 13
   | '3' :: '7' :: rest => rest.length = 13
   | '3' :: '0' :: c :: rest => ('0' ≤ c && c ≤ '5') && rest.length = 11
   | '3' :: '6' :: _ :: rest => rest.length = 11
   | '3' :: '8' :: _ :: rest => rest.length = 11
   | '3' :: '5' :: _ :: _ :: _ :: rest => rest.length = 11
   | '2' :: '1' :: '3' :: '1' :: rest => rest.length = 11
   | '1' :: '8' :: '0' :: '0' :: rest => rest.length = 11
   | _ => false)

/-- Groups of four for `'-'.join(cleaned[i:i+4] ...)`. -/
def chunk4 : Nat → List Char → List String
  | 0, _ => []
  | _ + 1, [] => []
  | fuel + 1, l => String.mk (l.take 4) :: chunk4 fuel (l.drop 4)

def creditCardBody (value : String) : Triple :=
  let cleaned : List Char := value.data.filter isDigit09
  if dollarMatch ccShape cleaned then
    (some (String.intercalate "-" (chunk4 (cleaned.length + 1) cleaned)), none, "correct")
  else (none, some "Invalid credit card number", "wrong")

/-- One octet: `25[0-5]|2[0-4][0-9]|[01]?[0-9][0-9]?`, as a predicate on a
whole dot-separated field (the union of the alternatives). -/
def octetOk (s : List Char) : Bool :=
  match s with
  | [a] => isDigit09 a
  | [a, b] => isDigit09 a && isDigit09 b
  | [a, b, c] =>
    (a = '2' && b = '5' && '0' ≤ c && c ≤ '5')
    || (a = '2' && '0' ≤ b && b ≤ '4' && isDigit09 c)
    || ((a = '0' || a = '1') && isDigit09 b && isDigit09 c)
  | _ => false

/-- Split on `'.'` (like Python's `str.split('.')`: empty fields kept). -/
def splitOnDotAux (acc : List Char) : List Char → List (List Char)
  | [] => [acc.reverse]
  | c :: rest =>
    if c = '.' then acc.reverse :: splitOnDotAux [] rest
    else splitOnDotAux (c :: acc) rest

/-- `^(octet\.){3}octet$`: exactly four dot-separated octets (octets
contain no dots, so the regex decompositions are the dot-separated
fields). -/
def ipShape (value : String) : Bool :=
  match splitOnDotAux [] value.data with
  | [a, b, c, d] => octetOk a && octetOk b && octetOk c && octetOk d
  | _ => false

def ipBody (value : String) : Triple :=
  if (ipShape value || (value.data.getLast? = some '\n' && ipShape ⟨value.data.dropLast⟩)) then
    (some value, none, "correct")
  else (none, some "Invalid IP address", "wrong")

/-- `DataValidator.validate_and_format_full_name` (validators.py 15-78). -/
def DataValidator.validate_and_format_full_name (env : ExtLibs) : PyVal → Except String Triple :=
  pyGuarded "Invalid name format" (fullNameBody env)

/-- `DataValidator.validate_and_format_date` (validators.py 80-136). -/
def DataValidator.validate_and_format_date (env : ExtLibs) : PyVal → Except String Triple :=
  pyGuarded "Invalid date format" (dateBody env)

/-- `DataValidator.validate_and_format_phone` (validators.py 138-181). -/
def DataValidator.validate_and_format_phone (env : ExtLibs) : PyVal → Except String Triple :=
  pyGuarded "Invalid phone number format" (phoneBody env)

/-- `DataValidator.validate_and_format_email` (validators.py 183-208). -/
def DataValidator.validate_and_format_email (env : ExtLibs) : PyVal → Except String Triple :=
  pyGuarded "Invalid email format" (emailBody env)

/-- `DataValidator.validate_and_format_aadhar` (validators.py 210-220). -/
def DataValidator.validate_and_format_aadhar : PyVal → Except String Triple :=
  pyUnguarded "TypeError" aadharBody

/-- `DataValidator.validate_and_format_pan` (validators.py 222-230). -/
def DataValidator.validate_and_format_pan : PyVal → Except String Triple :=
  pyUnguarded "AttributeError" panBody

/-- `DataValidator.validate_and_format_passport` (validators.py 232-240). -/
def DataValidator.validate_and_format_passport : PyVal → Except String Triple :=
  pyUnguarded "AttributeError" passportBody

/-- `DataValidator.validate_and_format_voter_id` (validators.py 242-250). -/
def DataValidator.validate_and_format_voter_id : PyVal → Except String Triple :=
  pyUnguarded "AttributeError" voterIdBody

/-- `DataValidator.validate_and_format_driving_license` (validators.py 252-260). -/
def DataValidator.validate_and_format_driving_license : PyVal → Except String Triple :=
  pyUnguarded "AttributeError" dlBody

/-- `DataValidator.validate_and_format_bank_account` (validators.py 262-270). -/
def DataValidator.validate_and_format_bank_account : PyVal → Except String Triple :=
  pyUnguarded "TypeError" bankBody

/-- `DataValidator.validate_and_format_credit_card` (validators.py 272-282). -/
def DataValidator.validate_and_format_credit_card : PyVal → Except String Triple :=
  pyUnguarded "TypeError" creditCardBody

/-- `DataValidator.validate_and_format_ip` (validators.py 284-290). -/
def DataValidator.validate_and_format_ip : PyVal → Except String Triple :=
  pyUnguarded "TypeError" ipBody

/-- `DataValidator.get_validator_for_type` (validators.py 292-310):
`dict.get` returns `None` for an unknown key — it does not raise. -/
def DataValidator.get_validator_for_type (env : ExtLibs) (data_type : String) :
    Option (PyVal → Except String Triple) :=
  if data_type = "full_name" then some (DataValidator.validate_and_format_full_name env)
  else if data_type = "date_of_birth" then some (DataValidator.validate_and_format_date env)
  else if data_type = "mobile_number" then some (DataValidator.validate_and_format_phone env)
  else if data_type = "telephone_number" then some (DataValidator.validate_and_format_phone env)
  else if data_type = "email_address" then some (DataValidator.validate_and_format_email env)
  else if data_type = "aadhar_number" then some DataValidator.validate_and_format_aadhar
  else if data_type = "pan_number" then some DataValidator.validate_and_format_pan
  else if data_type = "passport_number" then some DataValidator.validate_and_format_passport
  else if data_type = "voter_id_number" then some DataValidator.validate_and_format_voter_id
  else if data_type = "driving_license_number" then
    some DataValidator.validate_and_format_driving_license
  else if data_type = "bank_account_number" then
    some DataValidator.validate_and_format_bank_account
  else if data_type = "credit_debit_card_number" then
    some DataValidator.validate_and_format_credit_card
  else if data_type = "ip_address" then some DataValidator.validate_and_format_ip
  else none

/-! ## src/app.py — app-level validators (lines 61-147)

These are distinct from the DataValidator ones: they return pairs
`(value | None, error | None)` and are used only by the special-cased
branches of `extract_data_from_pdf`. -/

/-- Basic fallback validation of app.py lines 104-110. -/
def appNameBasic (formatted : String) : Option String × Option String :=
  if (pySplit formatted).length ≥ 1 ∧ (pySplit formatted).all (fun part => part.length ≥ 2)
  then (some formatted, none)
  else (none, some "Invalid name format")

/-- `validate_and_format_full_name` of app.py (lines 61-114): strip
punctuation, normalize spaces, parse with HumanName, consult genderize.io
(advisory; any failure falls through to the basic validation). -/
def app_validate_and_format_full_name (env : ExtLibs) (name0 : String) :
    Option String × Option String :=
  let name1 : String := ⟨(pyStrip name0).data.filter (fun c => isWordChar c ∨ pyWS c)⟩
  let name := String.intercalate " " (pySplit name1)
  if name = "" then (none, some "Name cannot be empty")
  else
    let parsed := env.humanName name
    if parsed.first = "" then (none, some "Invalid name format")
    else
      let formatted := String.intercalate " "
        ([parsed.first, parsed.middle, parsed.last].filter (fun s => s ≠ ""))
      match env.genderizeProb parsed.first with
      | some p => if p > (6 : ℚ) / 10 then (some formatted, none) else appNameBasic formatted
      | none => appNameBasic formatted

/-- `validate_and_format_mobile_number` of app.py (lines 116-139):
`re.sub(r'\D', '', number)` keeps only digits, so the subsequent
`startswith('+')` test is kept literally but can never be true. -/
def app_validate_and_format_mobile_number (env : ExtLibs) (number0 : String) :
    Option String × Option String :=
  let number : List Char := number0.data.filter isDigit09
  let number : List Char :=
    if number.head? = some '+' then number
    else if number.take 2 = ['9', '1'] then '+' :: number
    else '+' :: '9' :: '1' :: number
  match env.phoneParse ⟨number⟩ with
  | .error e => (none, some e)
  | .ok parsed =>
    if env.phoneValid parsed then (some (env.phoneFormatE164 parsed), none)
    else (none, some "Invalid mobile number")

/-- `validate_and_format_email` of app.py (lines 141-147). -/
def app_validate_and_format_email (env : ExtLibs) (email : String) :
    Option String × Option String :=
  match env.emailValidate email with
  | .ok v => (some v, none)
  | .error e => (none, some e)

/-! ## src/app.py — `extract_data` (lines 160-219, the generic pathway) -/

/-- A result dict produced by `extract_data` (it has an `is_valid` key). -/
structure GenRecord where
  value : String
  page : Nat
  is_valid : Bool
  validation_message : Option String
  status : String
  pattern_type : String
deriving DecidableEq

/-- Inner loop of the custom-search branch of `extract_data` (lines
171-184): occurrences of one page, threading the document-wide
`seen_values` set. -/
def extractDataCsMatches (pattern_type : String) (page_num : Nat) (seen : List String) :
    List String → List GenRecord × List String
  | [] => ([], seen)
  | v :: rest =>
    if seen.contains v then extractDataCsMatches pattern_type page_num seen rest
    else
      let step := extractDataCsMatches pattern_type page_num (v :: seen) rest
      ({value := v, page := page_num, is_valid := true, validation_message := none,
        status := "correct", pattern_type := pattern_type} :: step.1, step.2)

/-- Page loop of the custom-search branch of `extract_data`. -/
def extractDataCsPages (pattern_type term : String) (page_num : Nat) (seen : List String) :
    List String → List GenRecord
  | [] => []
  | page :: rest =>
    let step := extractDataCsMatches pattern_type page_num seen (findCI term page)
    step.1 ++ extractDataCsPages pattern_type term (page_num + 1) step.2 rest

/-- `formatted_value if formatted_value else value` (Python truthiness). -/
def valueOr (formatted : Option String) (value : String) : String :=
  match formatted with
  | some f => if f ≠ "" then f else value
  | none => value

/-- Inner loop of the generic branch of `extract_data` (lines 192-218):
strip each match, deduplicate document-wide on the stripped text, run the
validator if one is registered.  An exception from the validator would
propagate (`extract_data` has no handler), hence the `Except`. -/
def extractDataGenMatches (validator : Option (PyVal → Except String Triple))
    (pattern_type : String) (page_num : Nat) (seen : List String) :
    List String → Except String (List GenRecord × List String)
  | [] => .ok ([], seen)
  | m :: rest =>
    let value := pyStrip m
    if seen.contains value then
      extractDataGenMatches validator pattern_type page_num seen rest
    else
      match validator with
      | some v =>
        match v (.str value) with
        | .error e => .error e
        | .ok (formatted, msg, status) =>
          match extractDataGenMatches validator pattern_type page_num (value :: seen) rest with
          | .error e => .error e
          | .ok (rs, seen2) =>
            .ok ({value := valueOr formatted value, page := page_num,
                  is_valid := status = "correct", validation_message := msg,
                  status := status, pattern_type := pattern_type} :: rs, seen2)
      | none =>
        match extractDataGenMatches validator pattern_type page_num (value :: seen) rest with
        | .error e => .error e
        | .ok (rs, seen2) =>
          .ok ({value := value, page := page_num, is_valid := true,
                validation_message := none, status := "correct",
                pattern_type := pattern_type} :: rs, seen2)

/-- Page loop of the generic branch of `extract_data`. -/
def extractDataGenPages (validator : Option (PyVal → Except String Triple))
    (pattern_type : String) (rx : Rx) (page_num : Nat) (seen : List String) :
    List String → Except String (List GenRecord)
  | [] => .ok []
  | page :: rest =>
    match extractDataGenMatches validator pattern_type page_num seen (finditer rx page) with
    | .error e => .error e
    | .ok (rs, seen2) =>
      match extractDataGenPages validator pattern_type rx (page_num + 1) seen2 rest with
      | .error e => .error e
      | .ok rs2 => .ok (rs ++ rs2)

/-- `extract_data(text, pattern_type, page_texts, search_term)` (app.py
lines 160-219).  The `text` argument is unused, as in the source.  A
custom search with no term raises (`re.escape(None)`); an unknown pattern
type raises `KeyError` on the `PATTERNS[pattern_type]` lookup. -/
def extract_data (env : ExtLibs) (_text : String) (pattern_type : String)
    (page_texts : List String) (search_term : Option String) :
    Except String (List GenRecord) :=
  let validator := DataValidator.get_validator_for_type env pattern_type
  if pattern_type = "custom_search" then
    match search_term with
    | none => .error "TypeError"
    | some term => .ok (extractDataCsPages pattern_type term 1 [] page_texts)
  else
    match PATTERNS_lookup pattern_type with
    | none => .error "KeyError"
    | some none => .error "TypeError"
    | some (some rx) => extractDataGenPages validator pattern_type rx 1 [] page_texts

/-! ## src/app.py — `extract_data_from_pdf` (lines 221-321, the entry point) -/

/-- A result dict produced by `extract_data_from_pdf` (no `is_valid` key;
`filename` is added later by the upload routes). -/
structure PdfRecord where
  value : String
  page : Nat
  status : String
  validation_message : Option String
  pattern_type : String
  filename : Option String
deriving DecidableEq

/-- A document on disk: its per-page texts, or a file `fitz.open` raises
on (e.g. corrupt).  The handler at lines 319-321 catches the latter and
returns `[]`. -/
inductive PdfDoc where
  | ok (pages : List String) : PdfDoc
  | corrupt : PdfDoc
deriving DecidableEq

/-- The two local mobile patterns of lines 260-263:
`(?:\+91|91)?[6-9]\d{9}` -/
def rxMobileA : Rx :=
  rcat [.rep (ralts [rlit "+91", rlit "91"]) 0 (some 1),
    .cls (fun c => '6' ≤ c ∧ c ≤ '9'), .rep rdigit 9 (some 9)]

/-- `(?:\+91|91)?[789]\d{9}` -/
def rxMobileB : Rx :=
  rcat [.rep (ralts [rlit "+91", rlit "91"]) 0 (some 1),
    .cls (fun c => c = '7' ∨ c = '8' ∨ c = '9'), .rep rdigit 9 (some 9)]

/-- full_name branch (lines 233-258): PERSON entities of the page,
deduplicated by a `seen_names` set that is local to the page. -/
def pdfFullNameEnts (env : ExtLibs) (page_num : Nat) (seen : List String) :
    List String → List PdfRecord
  | [] => []
  | ent :: rest =>
    let name := pyStrip ent
    if name ≠ "" ∧ ¬ seen.contains name then
      let fe := app_validate_and_format_full_name env name
      (if truthy fe.1 then
        [{value := fe.1.getD "", page := page_num, status := "correct",
          validation_message := none, pattern_type := "full_name", filename := none}]
       else if truthy fe.2 then
        [{value := name, page := page_num, status := "incorrect",
          validation_message := fe.2, pattern_type := "full_name", filename := none}]
       else []) ++ pdfFullNameEnts env page_num (name :: seen) rest
    else pdfFullNameEnts env page_num seen rest

/-- mobile_number branch (lines 259-284), one pattern's matches: one
record per match, no deduplication. -/
def pdfMobileMatches (env : ExtLibs) (page_num : Nat) : List String → List PdfRecord
  | [] => []
  | number :: rest =>
    let fe := app_validate_and_format_mobile_number env number
    (if truthy fe.1 then
      [{value := fe.1.getD "", page := page_num, status := "correct",
        validation_message := none, pattern_type := "mobile_number", filename := none}]
     else if truthy fe.2 then
      [{value := number, page := page_num, status := "incorrect",
        validation_message := fe.2, pattern_type := "mobile_number", filename := none}]
     else []) ++ pdfMobileMatches env page_num rest

/-- email_address branch (lines 285-306): one record per regex match, no
deduplication.  The branch-local `email_pattern` is textually the same
regex as the PATTERNS entry, so `rxEmail` is reused. -/
def pdfEmailMatches (env : ExtLibs) (page_num : Nat) : List String → List PdfRecord
  | [] => []
  | email :: rest =>
    let fe := app_validate_and_format_email env email
    (if truthy fe.1 then
      [{value := fe.1.getD "", page := page_num, status := "correct",
        validation_message := none, pattern_type := "email_address", filename := none}]
     else if truthy fe.2 then
      [{value := email, page := page_num, status := "incorrect",
        validation_message := fe.2, pattern_type := "email_address", filename := none}]
     else []) ++ pdfEmailMatches env page_num rest

/-- custom_search branch (lines 307-317): one record per occurrence,
`match.group()` kept verbatim, always `"correct"`. -/
def pdfCustomPage (page_num : Nat) (term text : String) : List PdfRecord :=
  (findCI term text).map (fun v =>
    {value := v, page := page_num, status := "correct", validation_message := none,
     pattern_type := "custom_search", filename := none})

/-- Dispatch on the requested field type for one page.  Field types other
than the four special-cased ones match no branch and contribute nothing. -/
def pdfPage (env : ExtLibs) (pattern_type : String) (search_term : Option String)
    (page_num : Nat) (text : String) : List PdfRecord :=
  if pattern_type = "full_name" then
    pdfFullNameEnts env page_num [] (env.personEnts text)
  else if pattern_type = "mobile_number" then
    pdfMobileMatches env page_num (finditer rxMobileA text)
      ++ pdfMobileMatches env page_num (finditer rxMobileB text)
  else if pattern_type = "email_address" then
    pdfEmailMatches env page_num (finditer rxEmail text)
  else if pattern_type = "custom_search" ∧ truthy search_term then
    pdfCustomPage page_num (search_term.getD "") text
  else []

/-- Page loop of `extract_data_from_pdf`: pages with no extractable text
are skipped (`continue`), contributing zero records. -/
def pdfPages (env : ExtLibs) (pattern_type : String) (search_term : Option String)
    (page_num : Nat) : List String → List PdfRecord
  | [] => []
  | text :: rest =>
    (if pyStrip text = "" then [] else pdfPage env pattern_type search_term page_num text)
      ++ pdfPages env pattern_type search_term (page_num + 1) rest

/-- `extract_data_from_pdf(pdf_path, pattern_type, search_term)` (app.py
lines 221-321).  Any exception (e.g. `fitz.open` on a corrupt file) is
caught by the handler at lines 319-321 and the function returns `[]`. -/
def extract_data_from_pdf (env : ExtLibs) (doc : PdfDoc) (pattern_type : String)
    (search_term : Option String) : List PdfRecord :=
  match doc with
  | .corrupt => []
  | .ok pages => pdfPages env pattern_type search_term 1 pages

/-! ## src/app.py — `upload_multiple_files` (lines 444-513) and the
dashboard summary (lines 359-366) -/

/-- The JSON payload assembled by `upload_multiple_files`. -/
structure BatchOut where
  data : List PdfRecord
  processed_files : List (String × Nat)
  errors : List (String × String)
  total_files : Nat
  successful_files : Nat
  failed_files : Nat
deriving DecidableEq

/-- The per-file loop (lines 462-495).  `extract_data_from_pdf` never
raises (it catches everything itself), and saving/removing the upload is
modelled as infallible, so the per-file `except` is unreachable: the
error list receives exactly the files whose name does not end in
`.pdf`. -/
def uploadLoop (env : ExtLibs) (pattern_type : String) (search_term : Option String) :
    List (String × PdfDoc) →
    List PdfRecord × List (String × Nat) × List (String × String)
  | [] => ([], [], [])
  | (fname, doc) :: rest =>
    let step := uploadLoop env pattern_type search_term rest
    if pyEndsWith fname ".pdf" then
      let filename := env.secure_filename fname
      let results := (extract_data_from_pdf env doc pattern_type search_term).map
        (fun r => {r with filename := some filename})
      (results ++ step.1, (filename, results.length) :: step.2.1, step.2.2)
    else
      (step.1, step.2.1,
        (fname, "Invalid file type (only PDF files are supported)") :: step.2.2)

/-- `upload_multiple_files` (lines 444-513): early-outs for an empty file
list, then the per-file loop and the response payload. -/
def upload_multiple_files (env : ExtLibs) (files : List (String × PdfDoc))
    (pattern_type : String) (search_term : Option String) : Except String BatchOut :=
  if files.isEmpty ∨ files.head?.map Prod.fst = some "" then .error "No selected files"
  else
    let acc := uploadLoop env pattern_type search_term files
    .ok {data := acc.1, processed_files := acc.2.1, errors := acc.2.2,
         total_files := files.length, successful_files := acc.2.1.length,
         failed_files := acc.2.2.length}

/-- Python's `round` ties-to-even, on exact rationals. -/
def roundHalfEven (q : ℚ) : ℤ :=
  let f : ℤ := ⌊q⌋
  let r : ℚ := q - f
  if r < 1 / 2 then f
  else if 1 / 2 < r then f + 1
  else if f % 2 = 0 then f else f + 1

/-- `round(x, 2)`. -/
def round2 (q : ℚ) : ℚ := (roundHalfEven (q * 100) : ℚ) / 100

structure Summary where
  total : Nat
  valid : Nat
  invalid : Nat
  success_rate : ℚ
deriving DecidableEq

/-- The summary statistics of the `/dashboard-data` route (app.py lines
362-366), computed over the process-lifetime `extracted_data` log.
Python's float arithmetic is modelled by exact rationals. -/
def dashboard_summary (log : List PdfRecord) : Summary :=
  let total := log.length
  let valid := (log.filter (fun item => item.status = "correct")).length
  let invalid := total - valid
  {total := total, valid := valid, invalid := invalid,
   success_rate := round2 (if 0 < total then (valid : ℚ) / total * 100 else 0)}

/-! ## A concrete model of the external collaborators

Used to ground witnesses and counterexamples.  Every grounded statement
below either never consults the collaborator it fixes (guards and branch
dispatch fire first), or depends only on behaviour the real collaborator
exhibits on the concrete input (the email-validator library accepts the
literal `a@b.com`, which this model mirrors). -/

def hn0 : HNModel :=
  {first := "", middle := "", last := "", str := "", titles := [], suffixes := []}

def libs0 : ExtLibs :=
  {phoneParse := fun _ => .error "NumberParseException",
   phoneParseIN := fun _ => .error "NumberParseException",
   phoneValid := fun _ => false,
   phoneFormatE164 := fun s => s,
   phoneFormatIntl := fun s => s,
   emailValidate := fun s => if s = "a@b.com" then .ok "a@b.com" else .error "invalid email",
   humanName := fun _ => hn0,
   genderizeProb := fun _ => none,
   personEnts := fun _ => [],
   secure_filename := fun s => s,
   now := ⟨2026, 10, 12⟩}

/-! ## Derived notions used only to state theorems -/

/-- The identifiers registered in `get_validator_for_type`. -/
def registeredTypes : List String :=
  ["full_name", "date_of_birth", "mobile_number", "telephone_number", "email_address",
   "aadhar_number", "pan_number", "passport_number", "voter_id_number",
   "driving_license_number", "bank_account_number", "credit_debit_card_number",
   "ip_address"]

/-- The identifiers whose validator begins with the
`if not value or not isinstance(value, str)` guard. -/
def guardedTypes : List String :=
  ["full_name", "date_of_birth", "mobile_number", "telephone_number", "email_address"]

/-- The field types `extract_data_from_pdf` has a branch for. -/
def pdfBranchTypes : List String :=
  ["full_name", "mobile_number", "email_address", "custom_search"]

/-- The `(page, stripped match)` stream of the generic pathway: all of the
document's matches in page order. -/
def matchStream (rx : Rx) (page_num : Nat) : List String → List (Nat × String)
  | [] => []
  | page :: rest =>
    (finditer rx page).map (fun m => (page_num, pyStrip m))
      ++ matchStream rx (page_num + 1) rest

/-- Keep the first occurrence of each raw text not yet seen. -/
def dedupFirstAux (seen : List String) : List (Nat × String) → List (Nat × String)
  | [] => []
  | (p, v) :: rest =>
    if seen.contains v then dedupFirstAux seen rest
    else (p, v) :: dedupFirstAux (v :: seen) rest

/-- The seen-set after a run of the generic inner loop. -/
def seenUpd (seen : List String) : List (Nat × String) → List String
  | [] => seen
  | (_, v) :: rest =>
    if seen.contains v then seenUpd seen rest else seenUpd (v :: seen) rest

/-- The record the generic pathway builds from one surviving
`(page, raw)` candidate.  Registry validators never raise on a string
argument, so the `.error` default below is never reached. -/
def mkGenRecord (validator : Option (PyVal → Except String Triple)) (pt : String)
    (pv : Nat × String) : GenRecord :=
  match validator with
  | some v =>
    match v (.str pv.2) with
    | .ok (formatted, msg, status) =>
      {value := valueOr formatted pv.2, page := pv.1, is_valid := status = "correct",
       validation_message := msg, status := status, pattern_type := pt}
    | .error _ =>
      {value := pv.2, page := pv.1, is_valid := false, validation_message := none,
       status := "error", pattern_type := pt}
  | none =>
    {value := pv.2, page := pv.1, is_valid := true, validation_message := none,
     status := "correct", pattern_type := pt}

/-! ## Helper lemmas about the embedded code -/

/-- A guarded validator always returns (it never raises) on a string. -/
lemma pyGuarded_str_ok (msg : String) (f : String → Triple) (s : String) :
    ∃ r, pyGuarded msg f (.str s) = .ok r := by
  by_cases h : s = ""
  · exact ⟨(none, some msg, "wrong"), by simp [pyGuarded, h]⟩
  · exact ⟨f s, by simp [pyGuarded, h]⟩

/-- An unguarded validator also returns on a string (its body is total). -/
lemma pyUnguarded_str_ok (exc : String) (f : String → Triple) (s : String) :
    ∃ r, pyUnguarded exc f (.str s) = .ok r := ⟨f s, rfl⟩

/-- An unknown identifier is mapped to `None` by the registry. -/
lemma get_validator_unknown (env : ExtLibs) (t : String) (ht : t ∉ registeredTypes) :
    DataValidator.get_validator_for_type env t = none := by
  have n1 : ¬ t = "full_name" := fun he => ht (by rw [he]; decide)
  have n2 : ¬ t = "date_of_birth" := fun he => ht (by rw [he]; decide)
  have n3 : ¬ t = "mobile_number" := fun he => ht (by rw [he]; decide)
  have n4 : ¬ t = "telephone_number" := fun he => ht (by rw [he]; decide)
  have n5 : ¬ t = "email_address" := fun he => ht (by rw [he]; decide)
  have n6 : ¬ t = "aadhar_number" := fun he => ht (by rw [he]; decide)
  have n7 : ¬ t = "pan_number" := fun he => ht (by rw [he]; decide)
  have n8 : ¬ t = "passport_number" := fun he => ht (by rw [he]; decide)
  have n9 : ¬ t = "voter_id_number" := fun he => ht (by rw [he]; decide)
  have n10 : ¬ t = "driving_license_number" := fun he => ht (by rw [he]; decide)
  have n11 : ¬ t = "bank_account_number" := fun he => ht (by rw [he]; decide)
  have n12 : ¬ t = "credit_debit_card_number" := fun he => ht (by rw [he]; decide)
  have n13 : ¬ t = "ip_address" := fun he => ht (by rw [he]; decide)
  unfold DataValidator.get_validator_for_type
  rw [if_neg n1, if_neg n2, if_neg n3, if_neg n4, if_neg n5, if_neg n6, if_neg n7,
    if_neg n8, if_neg n9, if_neg n10, if_neg n11, if_neg n12, if_neg n13]

/-- Every validator the registry hands out returns a triple (never raises)
when applied to a string, by the guard for the guarded five and because
the pattern bodies are total for the rest. -/
lemma registry_str_ok (env : ExtLibs) (t : String) (v : PyVal → Except String Triple)
    (h : DataValidator.get_validator_for_type env t = some v) (s : String) :
    ∃ r, v (.str s) = .ok r := by
  by_cases ht : t ∈ registeredTypes
  · fin_cases ht
    · have hv := Option.some.inj
        (show some (DataValidator.validate_and_format_full_name env) = some v from h)
      subst hv; exact pyGuarded_str_ok _ _ s
    · have hv := Option.some.inj
        (show some (DataValidator.validate_and_format_date env) = some v from h)
      subst hv; exact pyGuarded_str_ok _ _ s
    · have hv := Option.some.inj
        (show some (DataValidator.validate_and_format_phone env) = some v from h)
      subst hv; exact pyGuarded_str_ok _ _ s
    · have hv := Option.some.inj
        (show some (DataValidator.validate_and_format_phone env) = some v from h)
      subst hv; exact pyGuarded_str_ok _ _ s
    · have hv := Option.some.inj
        (show some (DataValidator.validate_and_format_email env) = some v from h)
      subst hv; exact pyGuarded_str_ok _ _ s
    · have hv := Option.some.inj
        (show some DataValidator.validate_and_format_aadhar = some v from h)
      subst hv; exact pyUnguarded_str_ok _ _ s
    · have hv := Option.some.inj
        (show some DataValidator.validate_and_format_pan = some v from h)
      subst hv; exact pyUnguarded_str_ok _ _ s
    · have hv := Option.some.inj
        (show some DataValidator.validate_and_format_passport = some v from h)
      subst hv; exact pyUnguarded_str_ok _ _ s
    · have hv := Option.some.inj
        (show some DataValidator.validate_and_format_voter_id = some v from h)
      subst hv; exact pyUnguarded_str_ok _ _ s
    · have hv := Option.some.inj
        (show some DataValidator.validate_and_format_driving_license = some v from h)
      subst hv; exact pyUnguarded_str_ok _ _ s
    · have hv := Option.some.inj
        (show some DataValidator.validate_and_format_bank_account = some v from h)
      subst hv; exact pyUnguarded_str_ok _ _ s
    · have hv := Option.some.inj
        (show some DataValidator.validate_and_format_credit_card = some v from h)
      subst hv; exact pyUnguarded_str_ok _ _ s
    · have hv := Option.some.inj
        (show some DataValidator.validate_and_format_ip = some v from h)
      subst hv; exact pyUnguarded_str_ok _ _ s
  · rw [get_validator_unknown env t ht] at h
    exact Option.noConfusion h

/-- The inner loop of the generic pathway processes the page's match list
as a dedup of the stripped matches, threading the seen-set. -/
lemma genMatches_eq (validator : Option (PyVal → Except String Triple))
    (hok : ∀ v, validator = some v → ∀ s, ∃ r, v (.str s) = .ok r)
    (pt : String) (n : Nat) :
    ∀ (ms : List String) (seen : List String),
      extractDataGenMatches validator pt n seen ms =
        .ok ((dedupFirstAux seen (ms.map (fun m => (n, pyStrip m)))).map
              (mkGenRecord validator pt),
             seenUpd seen (ms.map (fun m => (n, pyStrip m)))) := by
  intro ms
  induction ms with
  | nil => intro seen; rfl
  | cons m rest ih =>
    intro seen
    by_cases hs : seen.contains (pyStrip m) = true
    · show (if seen.contains (pyStrip m) = true then _ else _) = _
      rw [if_pos hs]
      show extractDataGenMatches validator pt n seen rest = _
      rw [ih seen]
      simp only [List.map_cons, dedupFirstAux, seenUpd, if_pos hs]
    · show (if seen.contains (pyStrip m) = true then _ else _) = _
      rw [if_neg hs]
      cases hv : validator with
      | none =>
        rw [hv] at ih
        show (match extractDataGenMatches none pt n ((pyStrip m) :: seen) rest with
          | .error e => Except.error e
          | .ok (rs, seen2) => .ok (_ :: rs, seen2)) = _
        rw [ih ((pyStrip m) :: seen)]
        simp only [List.map_cons, dedupFirstAux, seenUpd, if_neg hs, List.map_cons,
          mkGenRecord]
      | some v =>
        obtain ⟨r, hr⟩ := hok v hv (pyStrip m)
        rw [hv] at ih
        show (match v (.str (pyStrip m)) with
          | .error e => Except.error e
          | .ok (formatted, msg, status) =>
            match extractDataGenMatches (some v) pt n ((pyStrip m) :: seen) rest with
            | .error e => .error e
            | .ok (rs, seen2) => .ok (_ :: rs, seen2)) = _
        rw [hr]
        obtain ⟨f, msg, st⟩ := r
        rw [ih ((pyStrip m) :: seen)]
        simp only [List.map_cons, dedupFirstAux, seenUpd, if_neg hs, List.map_cons,
          mkGenRecord, hr]

lemma seenUpd_append (l1 l2 : List (Nat × String)) :
    ∀ seen, seenUpd seen (l1 ++ l2) = seenUpd (seenUpd seen l1) l2 := by
  induction l1 with
  | nil => intro seen; rfl
  | cons a l1 ih =>
    intro seen
    obtain ⟨p, v⟩ := a
    show seenUpd seen ((p, v) :: (l1 ++ l2)) = _
    by_cases h : seen.contains v = true
    · simp only [seenUpd, if_pos h]
      exact ih seen
    · simp only [seenUpd, if_neg h]
      exact ih (v :: seen)

lemma dedupFirstAux_append (l1 l2 : List (Nat × String)) :
    ∀ seen, dedupFirstAux seen (l1 ++ l2) =
      dedupFirstAux seen l1 ++ dedupFirstAux (seenUpd seen l1) l2 := by
  induction l1 with
  | nil => intro seen; rfl
  | cons a l1 ih =>
    intro seen
    obtain ⟨p, v⟩ := a
    by_cases h : seen.contains v = true
    · simp only [List.cons_append, dedupFirstAux, seenUpd, if_pos h]
      exact ih seen
    · simp only [List.cons_append, dedupFirstAux, seenUpd, if_neg h]
      exact congrArg (List.cons (p, v)) (ih (v :: seen))

/-- The page loop of the generic pathway equals a document-wide dedup of
the whole match stream followed by record construction. -/
lemma genPages_eq (validator : Option (PyVal → Except String Triple))
    (hok : ∀ v, validator = some v → ∀ s, ∃ r, v (.str s) = .ok r)
    (pt : String) (rx : Rx) :
    ∀ (pages : List String) (n : Nat) (seen : List String),
      extractDataGenPages validator pt rx n seen pages =
        .ok ((dedupFirstAux seen (matchStream rx n pages)).map
              (mkGenRecord validator pt)) := by
  intro pages
  induction pages with
  | nil => intro n seen; rfl
  | cons page rest ih =>
    intro n seen
    show (match extractDataGenMatches validator pt n seen (finditer rx page) with
      | .error e => Except.error e
      | .ok (rs, seen2) =>
        match extractDataGenPages validator pt rx (n + 1) seen2 rest with
        | .error e => .error e
        | .ok rs2 => .ok (rs ++ rs2)) = _
    rw [genMatches_eq validator hok pt n (finditer rx page) seen]
    show (match extractDataGenPages validator pt rx (n + 1)
        (seenUpd seen ((finditer rx page).map (fun m => (n, pyStrip m)))) rest with
      | .error e => Except.error e
      | .ok rs2 => Except.ok
          ((dedupFirstAux seen ((finditer rx page).map (fun m => (n, pyStrip m)))).map
            (mkGenRecord validator pt) ++ rs2)) = _
    rw [ih (n + 1) (seenUpd seen ((finditer rx page).map (fun m => (n, pyStrip m))))]
    show Except.ok _ = _
    rw [show matchStream rx n (page :: rest) =
      (finditer rx page).map (fun m => (n, pyStrip m)) ++ matchStream rx (n + 1) rest
      from rfl]
    rw [dedupFirstAux_append, List.map_append]

lemma contains_mono (seen : List String) (v x : String)
    (h : ¬ (v :: seen).contains x = true) : ¬ seen.contains x = true := by
  intro hc
  exact h (by simp [List.contains_cons] at hc ⊢; exact Or.inr (by simpa using hc))

/-- The deduplicated stream has pairwise-distinct raw texts, none of them
already seen. -/
lemma dedupFirstAux_nodup :
    ∀ (l : List (Nat × String)) (seen : List String),
      (((dedupFirstAux seen l).map Prod.snd).Nodup ∧
       ∀ pv ∈ dedupFirstAux seen l, ¬ seen.contains pv.2 = true) := by
  intro l
  induction l with
  | nil =>
    intro seen
    exact ⟨List.nodup_nil, by intro pv hpv; simp [dedupFirstAux] at hpv⟩
  | cons a rest ih =>
    intro seen
    obtain ⟨p, v⟩ := a
    by_cases h : seen.contains v = true
    · simp only [dedupFirstAux, if_pos h]
      exact ih seen
    · simp only [dedupFirstAux, if_neg h]
      obtain ⟨ihn, ihm⟩ := ih (v :: seen)
      constructor
      · simp only [List.map_cons, List.nodup_cons]
        refine ⟨?_, ihn⟩
        intro hv
        obtain ⟨pv, hpv, hpv2⟩ := List.mem_map.mp hv
        have := ihm pv hpv
        rw [hpv2] at this
        exact this (by simp [List.contains_cons])
      · intro pv hpv
        rcases List.mem_cons.mp hpv with hh | hh
        · rw [hh]; exact h
        · exact contains_mono seen v pv.2 (ihm pv hh)

/-- The email branch of the entry point emits one record per match whose
validator outcome has a truthy value or a truthy error message — counting
matches, never collapsing duplicates. -/
lemma pdfEmailMatches_len (env : ExtLibs) (n : Nat) : ∀ ms : List String,
    (pdfEmailMatches env n ms).length =
      (ms.filter (fun m => truthy (app_validate_and_format_email env m).1
        || truthy (app_validate_and_format_email env m).2)).length := by
  intro ms
  induction ms with
  | nil => rfl
  | cons m rest ih =>
    show ((if truthy (app_validate_and_format_email env m).1 = true then _
      else if truthy (app_validate_and_format_email env m).2 = true then _ else []) ++
        pdfEmailMatches env n rest).length = _
    rw [List.length_append, ih, List.filter_cons]
    by_cases h1 : truthy (app_validate_and_format_email env m).1 = true
    · simp [h1, Nat.add_comm]
    · by_cases h2 : truthy (app_validate_and_format_email env m).2 = true
      · simp [h1, h2, Nat.add_comm]
      · simp [h1, h2]

/-! ## Helper lemmas for the entry point, the batch loop, custom search,
the phone validator and the Aadhar validator -/

lemma pdfPage_unknown (env : ExtLibs) (t : String) (st : Option String) (n : Nat)
    (text : String) (ht : t ∉ pdfBranchTypes) :
    pdfPage env t st n text = [] := by
  have n1 : ¬ t = "full_name" := fun he => ht (by rw [he]; decide)
  have n2 : ¬ t = "mobile_number" := fun he => ht (by rw [he]; decide)
  have n3 : ¬ t = "email_address" := fun he => ht (by rw [he]; decide)
  have n4 : ¬ (t = "custom_search" ∧ truthy st = true) :=
    fun he => ht (by rw [he.1]; decide)
  unfold pdfPage
  rw [if_neg n1, if_neg n2, if_neg n3, if_neg n4]

lemma pdfPages_unknown (env : ExtLibs) (t : String) (st : Option String)
    (ht : t ∉ pdfBranchTypes) : ∀ (n : Nat) (pages : List String),
    pdfPages env t st n pages = [] := by
  intro n pages
  induction pages generalizing n with
  | nil => rfl
  | cons p rest ih =>
    show (if pyStrip p = "" then [] else pdfPage env t st n p)
        ++ pdfPages env t st (n + 1) rest = []
    rw [ih, pdfPage_unknown env t st n p ht]
    simp

/-- One document's records, tagged with its (secured) filename, as the
batch loop does. -/
def taggedResults (env : ExtLibs) (pt : String) (st : Option String)
    (f : String × PdfDoc) : List PdfRecord :=
  (extract_data_from_pdf env f.2 pt st).map
    (fun r => {r with filename := some (env.secure_filename f.1)})

/-- The batch loop splits the files by extension: PDF-named files are
extracted and tagged, the rest land in the error list. -/
lemma uploadLoop_spec (env : ExtLibs) (pt : String) (st : Option String) :
    ∀ files : List (String × PdfDoc),
      uploadLoop env pt st files =
        ((files.filter (fun f => pyEndsWith f.1 ".pdf")).flatMap (taggedResults env pt st),
         (files.filter (fun f => pyEndsWith f.1 ".pdf")).map
           (fun f => (env.secure_filename f.1, (taggedResults env pt st f).length)),
         (files.filter (fun f => ¬ pyEndsWith f.1 ".pdf")).map
           (fun f => (f.1, "Invalid file type (only PDF files are supported)"))) := by
  intro files
  induction files with
  | nil => rfl
  | cons f rest ih =>
    obtain ⟨fname, doc⟩ := f
    show (if pyEndsWith fname ".pdf" then _ else _) = _
    by_cases hf : pyEndsWith fname ".pdf"
    · simp only [uploadLoop, ih]
      simp [hf, taggedResults, List.filter_cons]
    · simp only [uploadLoop, ih]
      simp [hf, List.filter_cons]

lemma ciStarts_take (t : List Char) : ∀ s : List Char, ciStarts t s = true →
    (s.take t.length).length = t.length ∧ lowerL (s.take t.length) = lowerL t := by
  induction t with
  | nil => intro s _; simp [lowerL]
  | cons a as ih =>
    intro s hs
    cases s with
    | nil => simp [ciStarts] at hs
    | cons b bs =>
      simp only [ciStarts, Bool.and_eq_true] at hs
      obtain ⟨hab, hrest⟩ := hs
      obtain ⟨ihlen, ihlow⟩ := ih bs hrest
      constructor
      · simpa [List.length_take] using ihlen
      · simp only [List.take, lowerL, List.map_cons] at ihlow ⊢
        rw [ihlow]
        simp only [ciEq, decide_eq_true_eq] at hab
        rw [hab]

lemma findCIAux_mem (t : List Char) :
    ∀ (fuel : Nat) (s : List Char), ∀ m ∈ findCIAux t fuel s,
      m.length = t.length ∧ lowerL m = lowerL t := by
  intro fuel
  induction fuel with
  | zero => intro s m hm; simp [findCIAux] at hm
  | succ f ih =>
    intro s m hm
    cases s with
    | nil => simp [findCIAux] at hm
    | cons c rest =>
      simp only [findCIAux] at hm
      by_cases hci : ciStarts t (c :: rest) = true
      · rw [if_pos hci] at hm
        rcases List.mem_cons.mp hm with hm | hm
        · subst hm; exact ciStarts_take t (c :: rest) hci
        · exact ih _ m hm
      · rw [if_neg hci] at hm
        exact ih _ m hm

/-- Every slice of the text that the case-insensitive literal scan emits
has the length of the term and agrees with it up to case. -/
lemma findCI_mem (term text : String) (ht : term ≠ "") :
    ∀ m ∈ findCI term text, m.data.length = term.data.length ∧
      lowerL m.data = lowerL term.data := by
  intro m hm
  have hne : term.data ≠ [] := by
    intro hc
    exact ht (by cases term with | mk l => simp at hc; simp [hc])
  unfold findCI at hm
  rw [if_neg (by simpa using hne)] at hm
  simp only [List.mem_map] at hm
  obtain ⟨l, hl, rfl⟩ := hm
  exact findCIAux_mem term.data _ text.data l hl

lemma pdfPage_custom (env : ExtLibs) (term : String) (ht : term ≠ "")
    (n : Nat) (text : String) :
    pdfPage env "custom_search" (some term) n text = pdfCustomPage n term text := by
  unfold pdfPage
  rw [if_neg (by decide), if_neg (by decide), if_neg (by decide),
    if_pos ⟨rfl, by simpa [truthy] using ht⟩]
  rfl

lemma pdfPages_custom_len (env : ExtLibs) (term : String) (ht : term ≠ "") :
    ∀ (n : Nat) (pages : List String),
    (pdfPages env "custom_search" (some term) n pages).length =
      (pages.map (fun p => if pyStrip p = "" then 0 else (findCI term p).length)).sum := by
  intro n pages
  induction pages generalizing n with
  | nil => rfl
  | cons p rest ih =>
    show ((if pyStrip p = "" then [] else pdfPage env "custom_search" (some term) n p)
        ++ pdfPages env "custom_search" (some term) (n + 1) rest).length = _
    rw [List.length_append, ih, List.map_cons, List.sum_cons]
    congr 1
    by_cases hp : pyStrip p = ""
    · simp [hp]
    · rw [if_neg hp, if_neg hp, pdfPage_custom env term ht n p]
      simp [pdfCustomPage]

lemma pdfPages_custom_mem (env : ExtLibs) (term : String) (ht : term ≠ "") :
    ∀ (n : Nat) (pages : List String),
    ∀ r ∈ pdfPages env "custom_search" (some term) n pages,
      r.status = "correct" ∧ r.validation_message = none ∧
      r.pattern_type = "custom_search" ∧
      r.value.data.length = term.data.length ∧ lowerL r.value.data = lowerL term.data := by
  intro n pages
  induction pages generalizing n with
  | nil => intro r hr; simp [pdfPages] at hr
  | cons p rest ih =>
    intro r hr
    have hr2 : r ∈ (if pyStrip p = "" then []
        else pdfPage env "custom_search" (some term) n p)
      ++ pdfPages env "custom_search" (some term) (n + 1) rest := hr
    rcases List.mem_append.mp hr2 with hm | hm
    · by_cases hp : pyStrip p = ""
      · rw [if_pos hp] at hm; simp at hm
      · rw [if_neg hp, pdfPage_custom env term ht n p] at hm
        unfold pdfCustomPage at hm
        simp only [List.mem_map] at hm
        obtain ⟨v, hv, rfl⟩ := hm
        exact ⟨rfl, rfl, rfl, findCI_mem term p ht v hv⟩
    · exact ih (n + 1) r hm

/-- The phone validator with the unreachable bare-national branch removed
(after the reassignment of line 154, `cleaned` always starts with `+`, so
the `if not cleaned.startswith('+')` block of lines 169-174 is dead). -/
def phoneNoFallback (env : ExtLibs) (value : String) : Triple :=
  match env.phoneParse ⟨phoneWithCC value⟩ with
  | .error e => (none, some ("Error validating phone: " ++ e), "wrong")
  | .ok number =>
    if env.phoneValid number then (some (env.phoneFormatIntl number), none, "correct")
    else (none, some "Invalid phone number", "wrong")

lemma phoneWithCC_head (value : String) : (phoneWithCC value).head? = some '+' := by
  by_cases h : (phoneClean value).head? = some '+'
  · simp [phoneWithCC, h]
  · simp [phoneWithCC, h]

lemma phoneBody_eq_noFallback (env : ExtLibs) (value : String) :
    phoneBody env value = phoneNoFallback env value := by
  simp only [phoneBody, phoneNoFallback]
  cases hp : env.phoneParse ⟨phoneWithCC value⟩ with
  | error e => rfl
  | ok n =>
    by_cases hv : env.phoneValid n
    · simp [hv]
    · simp [hv, phoneWithCC_head]

/-- A phone-library model for grounding the phone statements: on the
cleaned national number `9876543210` with the `+91` code prepended, the
real phonenumbers library parses it, reports it valid and formats it as
`+91 98765 43210`; this model mirrors exactly that. -/
def libsPhone : ExtLibs :=
  {libs0 with
    phoneParse := fun s =>
      if s = "+919876543210" then .ok "+919876543210" else .error "NumberParseException",
    phoneValid := fun n => n == "+919876543210",
    phoneFormatIntl := fun _ => "+91 98765 43210"}

lemma digit_not_stripped (c : Char) (h : isDigit09 c = true) :
    (decide (¬ (c = '-' ∨ pyWS c))) = true := by
  simp only [isDigit09, decide_eq_true_eq] at h
  simp only [decide_eq_true_eq]
  rintro (hc | hws)
  · subst hc; exact absurd h (by decide)
  · simp only [pyWS, decide_eq_true_eq] at hws
    rcases hws with h1 | h1 | h1 | h1 | h1 | h1 <;> (subst h1; exact absurd h (by decide))

lemma aadharClean_no_newline (s : String) : (aadharClean s).getLast? ≠ some '\n' := by
  intro h
  have hmem : '\n' ∈ (aadharClean s).getLast? := Option.mem_def.mpr h
  obtain ⟨hne, heq⟩ := List.mem_getLast?_eq_getLast hmem
  have hm : '\n' ∈ aadharClean s := heq ▸ List.getLast_mem hne
  simp only [aadharClean, List.mem_filter, decide_eq_true_eq] at hm
  exact hm.2 (Or.inr (by decide))

/-- The Dollar-before-newline quirk is vacuous for the Aadhar cleaning,
which strips all whitespace. -/
lemma aadhar_dollar (p : List Char → Bool) (s : String) :
    dollarMatch p (aadharClean s) = p (aadharClean s) := by
  simp [dollarMatch, aadharClean_no_newline s]

lemma all_digits_clean (s : String) (h : s.data.all isDigit09 = true) :
    aadharClean s = s.data := by
  unfold aadharClean
  apply List.filter_eq_self.mpr
  intro c hc
  exact digit_not_stripped c (List.all_eq_true.mp h c hc)

/-! ## Claim theorems -/

/-- C1: the claim says the entry point `extract_data_from_pdf` runs the
generic regex pathway for field types such as `pan_number`, so that a
document containing a valid PAN literal yields at least one record.  The
code does not: the entry point only implements the full_name, mobile,
email and custom-search branches and returns the empty list for every
other field type — while the generic scan-strip-dedup-validate pathway
the claim describes is fully implemented in `extract_data`, which is
never invoked.  At the failing input (one page `"PAN: ABCDE1234F"`,
field `pan_number`) the entry point yields `[]` and `extract_data` yields
exactly the claimed record. -/
theorem C1_entry_point_skips_generic_fields :
    (∀ env : ExtLibs,
      extract_data_from_pdf env (.ok ["PAN: ABCDE1234F"]) "pan_number" none = []) ∧
    (∀ env : ExtLibs,
      extract_data env "" "pan_number" ["PAN: ABCDE1234F"] none =
        .ok [{value := "ABCDE1234F", page := 1, is_valid := true,
              validation_message := none, status := "correct",
              pattern_type := "pan_number"}]) := by
  constructor
  · intro env; rfl
  · intro env; rfl

/-- C2 counterexample: a two-page document with the literal `a@b.com` on
both pages yields TWO records (pages 1 and 2) from the entry point's
email branch, not the single page-1 record the claim demands: that branch
has no seen-set at all. -/
theorem C2_email_no_dedup_counterexample :
    extract_data_from_pdf libs0 (.ok ["hi a@b.com", "yo a@b.com"]) "email_address" none =
      [{value := "a@b.com", page := 1, status := "correct", validation_message := none,
        pattern_type := "email_address", filename := none},
       {value := "a@b.com", page := 2, status := "correct", validation_message := none,
        pattern_type := "email_address", filename := none}] := by
  rfl

/-- C2 (amended): the document-wide first-occurrence deduplication the
claim describes holds for the generic pathway `extract_data` — its output
is exactly the deduplicated `(page, stripped match)` stream mapped
through the validator, so raw texts are pairwise distinct and the first
page wins (the concrete email example yields one record with page 1) —
but the live entry point `extract_data_from_pdf` does not deduplicate its
special-cased email flow: it emits one record per regex match. -/
theorem C2_dedup_generic_amended :
    (∀ (env : ExtLibs) (x pt : String) (rx : Rx) (pages : List String),
      pt ≠ "custom_search" → PATTERNS_lookup pt = some (some rx) →
      extract_data env x pt pages none =
        .ok ((dedupFirstAux [] (matchStream rx 1 pages)).map
              (mkGenRecord (DataValidator.get_validator_for_type env pt) pt))) ∧
    (∀ l : List (Nat × String), ((dedupFirstAux [] l).map Prod.snd).Nodup) ∧
    extract_data libs0 "" "email_address" ["hi a@b.com", "yo a@b.com"] none =
      .ok [{value := "a@b.com", page := 1, is_valid := true, validation_message := none,
            status := "correct", pattern_type := "email_address"}] ∧
    (∀ (env : ExtLibs) (n : Nat) (ms : List String),
      (pdfEmailMatches env n ms).length =
        (ms.filter (fun m => truthy (app_validate_and_format_email env m).1
          || truthy (app_validate_and_format_email env m).2)).length) := by
  refine ⟨?_, ?_, ?_, ?_⟩
  · intro env x pt rx pages h1 h2
    show (if pt = "custom_search" then _ else _) = _
    rw [if_neg h1, h2]
    exact genPages_eq _ (fun v hv s => registry_str_ok env pt v hv s) pt rx pages 1 []
  · intro l
    exact (dedupFirstAux_nodup l []).1
  · rfl
  · exact pdfEmailMatches_len

/-- C2 witness: the generic-pathway equation of `C2_dedup_generic_amended`
instantiated at the concrete two-page email document; the deduplicated
stream there is the single pair `(1, "a@b.com")`. -/
theorem C2_dedup_generic_amended_witness :
    (("email_address" : String) ≠ "custom_search" ∧
      PATTERNS_lookup "email_address" = some (some rxEmail)) ∧
    extract_data libs0 "" "email_address" ["hi a@b.com", "yo a@b.com"] none =
      .ok ((dedupFirstAux [] (matchStream rxEmail 1 ["hi a@b.com", "yo a@b.com"])).map
            (mkGenRecord (DataValidator.get_validator_for_type libs0 "email_address")
              "email_address")) ∧
    dedupFirstAux [] (matchStream rxEmail 1 ["hi a@b.com", "yo a@b.com"]) =
      [(1, "a@b.com")] := by
  refine ⟨⟨by decide, rfl⟩, ?_, ?_⟩
  · exact C2_dedup_generic_amended.1 libs0 "" "email_address" rxEmail
      ["hi a@b.com", "yo a@b.com"] (by decide) rfl
  · rfl

/-- C3 counterexample: the Aadhar validator on the empty string returns
the verdict literal `"wrong"`, not `"incorrect"` as the claim states, and
on a non-string it raises (`re.sub` with a `None` argument) instead of
returning a triple. -/
theorem C3_verdict_and_nonstring_counterexample :
    DataValidator.validate_and_format_aadhar (.str "") =
      .ok (none, some "Invalid Aadhar number", "wrong") ∧
    DataValidator.validate_and_format_aadhar .pyNone = .error "TypeError" ∧
    ("wrong" : String) ≠ "incorrect" := ⟨rfl, rfl, by decide⟩

/-- C3 (amended): every registered validator returns
`(None, message, "wrong")` — the code's failure verdict literal, not
`"incorrect"` — on the empty string without raising; on a non-string
value the four guarded validators (full_name, date_of_birth, the phone
pair, email) likewise return the `"wrong"` triple, while the remaining
pattern-based validators raise a `TypeError` or `AttributeError`. -/
theorem C3_empty_nonstring_amended : ∀ (env : ExtLibs), ∀ t ∈ registeredTypes,
    ∃ v, DataValidator.get_validator_for_type env t = some v ∧
      (∃ m, v (.str "") = .ok (none, some m, "wrong")) ∧
      (t ∈ guardedTypes → ∃ m, v .pyNone = .ok (none, some m, "wrong")) ∧
      (t ∉ guardedTypes → ∃ e, v .pyNone = .error e) := by
  intro env t ht
  fin_cases ht
  · exact ⟨_, rfl, ⟨"Invalid name format", rfl⟩,
      fun _ => ⟨"Invalid name format", rfl⟩, fun hn => absurd (by decide) hn⟩
  · exact ⟨_, rfl, ⟨"Invalid date format", rfl⟩,
      fun _ => ⟨"Invalid date format", rfl⟩, fun hn => absurd (by decide) hn⟩
  · exact ⟨_, rfl, ⟨"Invalid phone number format", rfl⟩,
      fun _ => ⟨"Invalid phone number format", rfl⟩, fun hn => absurd (by decide) hn⟩
  · exact ⟨_, rfl, ⟨"Invalid phone number format", rfl⟩,
      fun _ => ⟨"Invalid phone number format", rfl⟩, fun hn => absurd (by decide) hn⟩
  · exact ⟨_, rfl, ⟨"Invalid email format", rfl⟩,
      fun _ => ⟨"Invalid email format", rfl⟩, fun hn => absurd (by decide) hn⟩
  · exact ⟨_, rfl, ⟨"Invalid Aadhar number", rfl⟩,
      fun hm => absurd hm (by decide), fun _ => ⟨"TypeError", rfl⟩⟩
  · exact ⟨_, rfl, ⟨"Invalid PAN number", rfl⟩,
      fun hm => absurd hm (by decide), fun _ => ⟨"AttributeError", rfl⟩⟩
  · exact ⟨_, rfl, ⟨"Invalid passport number", rfl⟩,
      fun hm => absurd hm (by decide), fun _ => ⟨"AttributeError", rfl⟩⟩
  · exact ⟨_, rfl, ⟨"Invalid Voter ID number", rfl⟩,
      fun hm => absurd hm (by decide), fun _ => ⟨"AttributeError", rfl⟩⟩
  · exact ⟨_, rfl, ⟨"Invalid driving license number", rfl⟩,
      fun hm => absurd hm (by decide), fun _ => ⟨"AttributeError", rfl⟩⟩
  · exact ⟨_, rfl, ⟨"Invalid bank account number", rfl⟩,
      fun hm => absurd hm (by decide), fun _ => ⟨"TypeError", rfl⟩⟩
  · exact ⟨_, rfl, ⟨"Invalid credit card number", rfl⟩,
      fun hm => absurd hm (by decide), fun _ => ⟨"TypeError", rfl⟩⟩
  · exact ⟨_, rfl, ⟨"Invalid IP address", rfl⟩,
      fun hm => absurd hm (by decide), fun _ => ⟨"TypeError", rfl⟩⟩

/-- C3 witness: `C3_empty_nonstring_amended` applied to the concrete
registered type `aadhar_number`. -/
theorem C3_empty_nonstring_amended_witness :
    ∃ v, DataValidator.get_validator_for_type libs0 "aadhar_number" = some v ∧
      (∃ m, v (.str "") = .ok (none, some m, "wrong")) ∧
      (("aadhar_number" : String) ∈ guardedTypes →
        ∃ m, v .pyNone = .ok (none, some m, "wrong")) ∧
      (("aadhar_number" : String) ∉ guardedTypes → ∃ e, v .pyNone = .error e) :=
  C3_empty_nonstring_amended libs0 "aadhar_number" (by decide)

/-- C4 counterexample: requesting extraction with a field identifier
outside the registered set does not fail the request: the registry lookup
returns `None` (`dict.get`), the entry point matches no branch, and the
request succeeds with an empty record list — there is no
`UnknownFieldError` anywhere in the code. -/
theorem C4_unknown_field_counterexample :
    DataValidator.get_validator_for_type libs0 "social_security_number" = none ∧
    extract_data_from_pdf libs0 (.ok ["SSN 123-45-6789"]) "social_security_number" none
      = [] :=
  ⟨rfl, rfl⟩

/-- C4 (amended): an identifier outside the registered set makes
`get_validator_for_type` return `None` rather than raise, and an
identifier outside the four special-cased branch types makes
`extract_data_from_pdf` return the empty list for any document: the
request succeeds with no records instead of failing with an
`UnknownFieldError`. -/
theorem C4_unknown_field_amended :
    (∀ (env : ExtLibs) (t : String), t ∉ registeredTypes →
      DataValidator.get_validator_for_type env t = none) ∧
    (∀ (env : ExtLibs) (doc : PdfDoc) (t : String) (st : Option String),
      t ∉ pdfBranchTypes → extract_data_from_pdf env doc t st = []) := by
  constructor
  · exact get_validator_unknown
  · intro env doc t st ht
    cases doc with
    | corrupt => rfl
    | ok pages => exact pdfPages_unknown env t st ht 1 pages

/-- C4 witness: `C4_unknown_field_amended` applied to the concrete
unknown identifier `social_security_number`. -/
theorem C4_unknown_field_amended_witness :
    DataValidator.get_validator_for_type libs0 "social_security_number" = none ∧
    extract_data_from_pdf libs0 (.ok ["page one", "page two"])
      "social_security_number" (some "x") = [] :=
  ⟨C4_unknown_field_amended.1 libs0 "social_security_number" (by decide),
   C4_unknown_field_amended.2 libs0 (.ok ["page one", "page two"])
     "social_security_number" (some "x") (by decide)⟩

/-- C5 counterexample: a three-document batch whose third file is corrupt.
The corrupt document contributes an empty result list and the batch
continues — but its filename lands in `processed_files` with a zero
count, and the error list stays EMPTY, contradicting the claim that the
failing document's filename appears in the per-file error list.  The five
records of the two healthy documents carry their filenames. -/
theorem C5_corrupt_file_counterexample :
    upload_multiple_files libs0
        [("a.pdf", .ok ["z z"]), ("b.pdf", .ok ["z z z"]), ("c.pdf", .corrupt)]
        "custom_search" (some "z") =
      .ok {data :=
            [{value := "z", page := 1, status := "correct", validation_message := none,
              pattern_type := "custom_search", filename := some "a.pdf"},
             {value := "z", page := 1, status := "correct", validation_message := none,
              pattern_type := "custom_search", filename := some "a.pdf"},
             {value := "z", page := 1, status := "correct", validation_message := none,
              pattern_type := "custom_search", filename := some "b.pdf"},
             {value := "z", page := 1, status := "correct", validation_message := none,
              pattern_type := "custom_search", filename := some "b.pdf"},
             {value := "z", page := 1, status := "correct", validation_message := none,
              pattern_type := "custom_search", filename := some "b.pdf"}],
           processed_files := [("a.pdf", 2), ("b.pdf", 3), ("c.pdf", 0)],
           errors := [], total_files := 3, successful_files := 3, failed_files := 0} := by
  rfl

/-- C5 (amended): a document whose extraction fails is caught inside
`extract_data_from_pdf` and contributes an empty, filename-tagged result
list; the batch continues, all healthy documents' records are tagged and
counted, and the corrupt document's filename appears in
`processed_files` with count 0 — not in the error list, which receives
exactly the files whose name does not end in `.pdf`. -/
theorem C5_batch_amended :
    ∀ (env : ExtLibs) (files : List (String × PdfDoc)) (pt : String)
      (st : Option String) (out : BatchOut),
      upload_multiple_files env files pt st = .ok out →
      (out.errors = (files.filter (fun f => ¬ pyEndsWith f.1 ".pdf")).map
         (fun f => (f.1, "Invalid file type (only PDF files are supported)"))) ∧
      (out.data = (files.filter (fun f => pyEndsWith f.1 ".pdf")).flatMap
         (taggedResults env pt st)) ∧
      (out.processed_files = (files.filter (fun f => pyEndsWith f.1 ".pdf")).map
         (fun f => (env.secure_filename f.1, (taggedResults env pt st f).length))) ∧
      (∀ p ∈ out.errors, ¬ pyEndsWith p.1 ".pdf") ∧
      (∀ n, pyEndsWith n ".pdf" → (n, PdfDoc.corrupt) ∈ files →
        (env.secure_filename n, 0) ∈ out.processed_files) ∧
      out.total_files = files.length ∧
      out.successful_files = out.processed_files.length ∧
      out.failed_files = out.errors.length := by
  intro env files pt st out h
  unfold upload_multiple_files at h
  split_ifs at h with h0
  injection h with h
  subst h
  rw [uploadLoop_spec]
  refine ⟨rfl, rfl, rfl, ?_, ?_, rfl, rfl, rfl⟩
  · intro p hp
    simp only [List.mem_map, List.mem_filter] at hp
    obtain ⟨f, ⟨_, hf⟩, rfl⟩ := hp
    simpa using hf
  · intro n hn hmem
    simp only [List.mem_map, List.mem_filter]
    refine ⟨(n, PdfDoc.corrupt), ⟨hmem, hn⟩, ?_⟩
    simp [taggedResults, extract_data_from_pdf]

/-- C5 witness: `C5_batch_amended` applied to the concrete three-document
batch of the counterexample. -/
theorem C5_batch_amended_witness :
    (∀ p ∈ (BatchOut.mk
        [{value := "z", page := 1, status := "correct", validation_message := none,
          pattern_type := "custom_search", filename := some "a.pdf"},
         {value := "z", page := 1, status := "correct", validation_message := none,
          pattern_type := "custom_search", filename := some "a.pdf"},
         {value := "z", page := 1, status := "correct", validation_message := none,
          pattern_type := "custom_search", filename := some "b.pdf"},
         {value := "z", page := 1, status := "correct", validation_message := none,
          pattern_type := "custom_search", filename := some "b.pdf"},
         {value := "z", page := 1, status := "correct", validation_message := none,
          pattern_type := "custom_search", filename := some "b.pdf"}]
        [("a.pdf", 2), ("b.pdf", 3), ("c.pdf", 0)] [] 3 3 0).errors,
      ¬ pyEndsWith p.1 ".pdf") ∧
    (("c.pdf" : String), 0) ∈ (BatchOut.mk
        [{value := "z", page := 1, status := "correct", validation_message := none,
          pattern_type := "custom_search", filename := some "a.pdf"},
         {value := "z", page := 1, status := "correct", validation_message := none,
          pattern_type := "custom_search", filename := some "a.pdf"},
         {value := "z", page := 1, status := "correct", validation_message := none,
          pattern_type := "custom_search", filename := some "b.pdf"},
         {value := "z", page := 1, status := "correct", validation_message := none,
          pattern_type := "custom_search", filename := some "b.pdf"},
         {value := "z", page := 1, status := "correct", validation_message := none,
          pattern_type := "custom_search", filename := some "b.pdf"}]
        [("a.pdf", 2), ("b.pdf", 3), ("c.pdf", 0)] [] 3 3 0).processed_files := by
  have h := C5_batch_amended libs0
    [("a.pdf", .ok ["z z"]), ("b.pdf", .ok ["z z z"]), ("c.pdf", .corrupt)]
    "custom_search" (some "z") _ rfl
  exact ⟨h.2.2.2.1, h.2.2.2.2.1 "c.pdf" (by decide) (by decide)⟩

/-- C6 counterexample: the phone validator's failure verdict is the
literal `"wrong"`, never `"incorrect"` as the claim states (here on the
empty string, where the guard fires before any library call, so the
result is independent of the phone-library model). -/
theorem C6_phone_verdict_counterexample :
    DataValidator.validate_and_format_phone libs0 (.str "") =
      .ok (none, some "Invalid phone number format", "wrong") ∧
    ("wrong" : String) ≠ "incorrect" := ⟨rfl, by decide⟩

/-- C6 (amended): the phone validator keeps digits and EVERY `+` and `-`
(not only leading ones), prepends `+91` when the cleaned input has no
leading `+`, and then its verdict is decided by the phone library's
validity check on that single country-coded interpretation alone: the
bare-national fallback of lines 169-174 is unreachable (after the
reassignment, `cleaned` always starts with `+`), and the failure verdict
is `"wrong"`.  When the library validates the country-coded
interpretation, the international display form is returned with verdict
`"correct"`. -/
theorem C6_phone_amended :
    (∀ (env : ExtLibs) (v : PyVal),
      DataValidator.validate_and_format_phone env v =
        match v with
        | .str s =>
          if s = "" then
            Except.ok ((none : Option String), some "Invalid phone number format", "wrong")
          else .ok (phoneNoFallback env s)
        | _ => .ok (none, some "Invalid phone number format", "wrong")) ∧
    (∀ (env : ExtLibs) (s : String) (n : String),
      env.phoneParse ⟨phoneWithCC s⟩ = .ok n → env.phoneValid n = true →
        phoneNoFallback env s = (some (env.phoneFormatIntl n), none, "correct")) ∧
    (∀ (env : ExtLibs) (s : String),
      (phoneNoFallback env s).2.2 = "correct" ↔
        ∃ n, env.phoneParse ⟨phoneWithCC s⟩ = .ok n ∧ env.phoneValid n = true) ∧
    phoneClean "(98) 76+54-32" = "9876+54-32".data := by
  refine ⟨?_, ?_, ?_, ?_⟩
  · intro env v
    cases v with
    | str s =>
      by_cases h : s = ""
      · simp [DataValidator.validate_and_format_phone, pyGuarded, h]
      · simp [DataValidator.validate_and_format_phone, pyGuarded, h,
          phoneBody_eq_noFallback]
    | pyNone => rfl
    | int n => rfl
  · intro env s n hp hv
    unfold phoneNoFallback
    rw [hp]
    simp [hv]
  · intro env s
    unfold phoneNoFallback
    cases hp : env.phoneParse ⟨phoneWithCC s⟩ with
    | error e => simp
    | ok n =>
      by_cases hv : env.phoneValid n
      · simp [hv]
      · simp [hv]
  · rfl

/-- C6 witness: `C6_phone_amended` applied to the input `9876543210` with
the grounded `libsPhone` model — the guard is passed, the country-coded
interpretation is valid, and the validator returns the international
display form with verdict `"correct"`. -/
theorem C6_phone_amended_witness :
    DataValidator.validate_and_format_phone libsPhone (.str "9876543210") =
      .ok (some "+91 98765 43210", none, "correct") ∧
    phoneNoFallback libsPhone "9876543210" =
      (some "+91 98765 43210", none, "correct") := by
  have h2 := C6_phone_amended.2.1 libsPhone "9876543210" "+919876543210" rfl rfl
  refine ⟨?_, h2⟩
  rw [C6_phone_amended.1 libsPhone (.str "9876543210")]
  rfl

/-- C7: for the custom_search field the entry point emits one record per
case-insensitive occurrence of the (regex-escaped, hence literal) term
per non-blank page, with no deduplication of any kind, no validator,
every record `"correct"` with no message, and the matched slice kept
verbatim (same length as the term, equal to it up to case). -/
theorem C7_custom_search_per_occurrence (env : ExtLibs) (pages : List String)
    (term : String) (ht : term ≠ "") :
    (extract_data_from_pdf env (.ok pages) "custom_search" (some term)).length =
      (pages.map (fun p => if pyStrip p = "" then 0 else (findCI term p).length)).sum ∧
    (∀ r ∈ extract_data_from_pdf env (.ok pages) "custom_search" (some term),
      r.status = "correct" ∧ r.validation_message = none ∧
      r.pattern_type = "custom_search" ∧
      r.value.data.length = term.data.length ∧ lowerL r.value.data = lowerL term.data) :=
  ⟨pdfPages_custom_len env term ht 1 pages, pdfPages_custom_mem env term ht 1 pages⟩

/-- C7 witness: the claim's own example — the term `Invoice` occurring
once on each of two pages yields exactly two records, one per page, the
second matching `INVOICE` case-insensitively. -/
theorem C7_custom_search_per_occurrence_witness :
    (("Invoice" : String) ≠ "" ∧
      (extract_data_from_pdf libs0 (.ok ["Invoice due", "get INVOICE"])
          "custom_search" (some "Invoice")).length =
        ((["Invoice due", "get INVOICE"] : List String).map
          (fun p => if pyStrip p = "" then 0 else (findCI "Invoice" p).length)).sum) ∧
    (extract_data_from_pdf libs0 (.ok ["Invoice due", "get INVOICE"])
        "custom_search" (some "Invoice")).map (fun r => (r.value, r.page, r.status)) =
      [("Invoice", 1, "correct"), ("INVOICE", 2, "correct")] := by
  refine ⟨⟨by decide,
    (C7_custom_search_per_occurrence libs0 ["Invoice due", "get INVOICE"] "Invoice"
      (by decide)).1⟩, ?_⟩
  rfl

/-- C8: the dashboard summary over the cumulative process-lifetime log
(the concatenation of all earlier uploads' records with the current
batch's): `total` counts every logged record, `valid` the `"correct"`
ones of all batches, `invalid = total - valid`, `valid ≤ total`, and the
success rate is the percentage `valid / total * 100` rounded to two
decimal places — equal to `0` when the log is empty (the claim's
formulation and the code's `round((valid / total * 100) if total > 0
else 0, 2)` agree). -/
theorem C8_summary_cumulative (l1 l2 : List PdfRecord) :
    (dashboard_summary (l1 ++ l2)).total = l1.length + l2.length ∧
    (dashboard_summary (l1 ++ l2)).valid =
      (l1.filter (fun r => r.status = "correct")).length +
      (l2.filter (fun r => r.status = "correct")).length ∧
    (dashboard_summary (l1 ++ l2)).invalid =
      (dashboard_summary (l1 ++ l2)).total - (dashboard_summary (l1 ++ l2)).valid ∧
    (dashboard_summary (l1 ++ l2)).valid ≤ (dashboard_summary (l1 ++ l2)).total ∧
    (dashboard_summary (l1 ++ l2)).success_rate =
      (if (dashboard_summary (l1 ++ l2)).total = 0 then 0
       else round2 (((dashboard_summary (l1 ++ l2)).valid : ℚ) * 100 /
         ((dashboard_summary (l1 ++ l2)).total : ℚ))) := by
  refine ⟨?_, ?_, rfl, ?_, ?_⟩
  · simp [dashboard_summary]
  · simp [dashboard_summary, List.filter_append]
  · simp only [dashboard_summary]
    exact List.length_filter_le _ _
  · simp only [dashboard_summary]
    by_cases h : (l1 ++ l2).length = 0
    · rw [if_pos h, if_neg (by omega : ¬ 0 < (l1 ++ l2).length)]
      norm_num [round2, roundHalfEven]
    · rw [if_neg h, if_pos (by omega : 0 < (l1 ++ l2).length)]
      congr 1
      ring

/-- C9 counterexample: a 13-digit input is rejected with the verdict
literal `"wrong"`, not `"incorrect"` as the claim states. -/
theorem C9_wrong_verdict_counterexample :
    DataValidator.validate_and_format_aadhar (.str "1234567890123") =
      .ok (none, some "Invalid Aadhar number", "wrong") ∧
    ("wrong" : String) ≠ "incorrect" := ⟨rfl, by decide⟩

/-- C9 (amended): the Aadhar validator strips spaces and hyphens, accepts
exactly when 12 digits remain (returning them as `XXXX-XXXX-XXXX` with
verdict `"correct"`), both spaced and hyphenated versions of
`1234 5678 9012` normalize to `1234-5678-9012`, and every 13-digit input
is rejected — with the verdict literal `"wrong"`, not `"incorrect"`. -/
theorem C9_aadhar_amended :
    (∀ s : String,
      DataValidator.validate_and_format_aadhar (.str s) =
        .ok (if (aadharClean s).length = 12 ∧ (aadharClean s).all isDigit09 = true then
               (some (aadharFmt (aadharClean s)), none, "correct")
             else (none, some "Invalid Aadhar number", "wrong"))) ∧
    DataValidator.validate_and_format_aadhar (.str "1234 5678 9012") =
      .ok (some "1234-5678-9012", none, "correct") ∧
    DataValidator.validate_and_format_aadhar (.str "1234-5678-9012") =
      .ok (some "1234-5678-9012", none, "correct") ∧
    (∀ s : String, s.data.length = 13 → s.data.all isDigit09 = true →
      DataValidator.validate_and_format_aadhar (.str s) =
        .ok (none, some "Invalid Aadhar number", "wrong")) := by
  have key : ∀ s : String,
      DataValidator.validate_and_format_aadhar (.str s) =
        .ok (if (aadharClean s).length = 12 ∧ (aadharClean s).all isDigit09 = true then
               (some (aadharFmt (aadharClean s)), none, "correct")
             else (none, some "Invalid Aadhar number", "wrong")) := by
    intro s
    simp only [DataValidator.validate_and_format_aadhar, pyUnguarded, aadharBody,
      aadhar_dollar]
    by_cases h : (aadharClean s).length = 12 ∧ (aadharClean s).all isDigit09 = true
    · rw [if_pos h]
      have hb : ((aadharClean s).length = 12 && (aadharClean s).all isDigit09) = true := by
        simp [h.1, h.2]
      rw [if_pos hb]
    · rw [if_neg h]
      have hb : ¬ (((aadharClean s).length = 12 && (aadharClean s).all isDigit09) = true) := by
        simp only [Bool.and_eq_true, decide_eq_true_eq]
        exact fun hc => h ⟨hc.1, hc.2⟩
      rw [if_neg hb]
  refine ⟨key, ?_, ?_, ?_⟩
  · rw [key]; rfl
  · rw [key]; rfl
  · intro s h13 hdig
    rw [key, all_digits_clean s hdig, if_neg]
    intro hc
    rw [h13] at hc
    exact absurd hc.1 (by decide)

/-- C9 witness: `C9_aadhar_amended` applied to the concrete 13-digit
input `1234567890123`. -/
theorem C9_aadhar_amended_witness :
    DataValidator.validate_and_format_aadhar (.str "1234567890123") =
      .ok (none, some "Invalid Aadhar number", "wrong") :=
  C9_aadhar_amended.2.2.2 "1234567890123" (by decide) (by decide)

/-! ## Supporting idempotence results (normalization as a fixed point)

These back the spec's idempotence property for the validators whose
logic is entirely internal; the validators built on the external phone,
email and name libraries are black boxes whose idempotence is a property
of those libraries. -/

theorem ip_validator_idempotent (s v : String)
    (h : ipBody s = (some v, none, "correct")) :
    ipBody v = (some v, none, "correct") := by
  unfold ipBody at h ⊢
  by_cases hc : (ipShape s || (s.data.getLast? = some '\n' && ipShape ⟨s.data.dropLast⟩)) = true
  · rw [if_pos hc] at h
    have hv : s = v := by
      simpa using congrArg (fun t : Triple => t.1) h
    subst hv
    rw [if_pos hc]
  · rw [if_neg hc] at h
    simp at h

lemma filter_digits_all (l : List Char) : (l.filter isDigit09).all isDigit09 = true := by
  rw [List.all_eq_true]
  intro c hc
  exact (List.mem_filter.mp hc).2

lemma digits_no_newline (l : List Char) (hall : l.all isDigit09 = true) :
    l.getLast? ≠ some '\n' := by
  intro h
  have hmem : '\n' ∈ l.getLast? := Option.mem_def.mpr h
  obtain ⟨hne, heq⟩ := List.mem_getLast?_eq_getLast hmem
  have hm : '\n' ∈ l := heq ▸ List.getLast_mem hne
  have := List.all_eq_true.mp hall _ hm
  exact absurd this (by decide)

lemma dollar_digits (p : List Char → Bool) (l : List Char)
    (hall : l.all isDigit09 = true) : dollarMatch p l = p l := by
  simp [dollarMatch, digits_no_newline l hall]

theorem bank_validator_idempotent (s v : String)
    (h : bankBody s = (some v, none, "correct")) :
    bankBody v = (some v, none, "correct") := by
  simp only [bankBody] at h ⊢
  rw [dollar_digits _ _ (filter_digits_all s.data)] at h
  by_cases hc : (8 ≤ (s.data.filter isDigit09).length
      && (s.data.filter isDigit09).length ≤ 18
      && (s.data.filter isDigit09).all isDigit09) = true
  · rw [if_pos hc] at h
    have hv : (⟨s.data.filter isDigit09⟩ : String) = v := by
      simpa using congrArg (fun t : Triple => t.1) h
    subst hv
    have hdata : (⟨s.data.filter isDigit09⟩ : String).data = s.data.filter isDigit09 := rfl
    rw [hdata]
    have hself : (s.data.filter isDigit09).filter isDigit09 = s.data.filter isDigit09 :=
      List.filter_eq_self.mpr (fun c hc2 => (List.mem_filter.mp hc2).2)
    rw [hself, dollar_digits _ _ (filter_digits_all s.data), if_pos hc]
  · rw [if_neg hc] at h
    simp at h

lemma filter_digits_self (l : List Char) (hall : l.all isDigit09 = true) :
    l.filter (fun c => ¬ (c = '-' ∨ pyWS c)) = l :=
  List.filter_eq_self.mpr (fun c hc => digit_not_stripped c (List.all_eq_true.mp hall c hc))

lemma all_digits_take (l : List Char) (n : Nat) (hall : l.all isDigit09 = true) :
    (l.take n).all isDigit09 = true := by
  rw [List.all_eq_true] at hall ⊢
  exact fun c hc => hall c (List.mem_of_mem_take hc)

lemma all_digits_drop (l : List Char) (n : Nat) (hall : l.all isDigit09 = true) :
    (l.drop n).all isDigit09 = true := by
  rw [List.all_eq_true] at hall ⊢
  exact fun c hc => hall c (List.mem_of_mem_drop hc)

lemma aadharClean_fmt (c : List Char) (hall : c.all isDigit09 = true) :
    aadharClean (aadharFmt c) = c := by
  unfold aadharClean aadharFmt
  rw [String.data_append, String.data_append, String.data_append, String.data_append]
  show (c.take 4 ++ ('-' :: []) ++ ((c.drop 4).take 4) ++ ('-' :: []) ++ c.drop 8).filter _ = c
  rw [List.filter_append, List.filter_append, List.filter_append, List.filter_append]
  rw [filter_digits_self _ (all_digits_take c 4 hall),
    filter_digits_self _ (all_digits_take (c.drop 4) 4 (all_digits_drop c 4 hall)),
    filter_digits_self _ (all_digits_drop c 8 hall)]
  show c.take 4 ++ [] ++ (c.drop 4).take 4 ++ [] ++ c.drop 8 = c
  simp only [List.append_nil]
  rw [show c.drop 8 = (c.drop 4).drop 4 by rw [List.drop_drop]]
  rw [List.append_assoc, List.take_append_drop, List.take_append_drop]

theorem aadhar_validator_idempotent (s v : String)
    (h : aadharBody s = (some v, none, "correct")) :
    aadharBody v = (some v, none, "correct") := by
  simp only [aadharBody, aadhar_dollar] at h ⊢
  by_cases hc : ((aadharClean s).length = 12 && (aadharClean s).all isDigit09) = true
  · rw [if_pos hc] at h
    have hall : (aadharClean s).all isDigit09 = true := by
      have hc2 := hc
      simp only [Bool.and_eq_true] at hc2
      exact hc2.2
    have hv : aadharFmt (aadharClean s) = v := by
      simpa using congrArg (fun t : Triple => t.1) h
    have hclean : aadharClean v = aadharClean s := by
      rw [← hv, aadharClean_fmt _ hall]
    rw [hclean, if_pos hc, hv]
  · rw [if_neg hc] at h
    simp at h
